import Mathlib

/-!
# Fleet front end: assignment and order-lifecycle handlers

A shallow embedding of the React pages `Vehicles.js`, `Drivers.js`, `Orders.js`,
`Communication.js`, `Dashboard.js`, `Costs.js` and `Register.js`, of the socket service
`services/socket.js` and of the routes of `App.js`.

* A handler is a function of the page state it reads and of the REST server's records,
  returning the new page state, the new records and the trace of what it did (requests sent,
  dialogs shown, reloads started), in program order.
* `api` (`../services/api`) is an HTTP client for a server that lives outside this repository.
  Every awaited call takes its outcome as a `Response` argument. A `put` that resolves
  overwrites, on the record with the addressed id, exactly the fields its body carries;
  a call that rejects changes nothing.
* Text inputs are carried as their text; a populated reference (`vehicle.assignedDriver`,
  an object with an `_id`) is carried as that `_id`, `null` as `none`.
-/

namespace Fleet

/-! ## The `api` collaborator -/

/-- Outcome of one awaited `api` call: the promise resolves, or it rejects and the handler reads
`error.response?.data?.message` (`none` when there is no such field). -/
inductive Response where
  | ok
  | fail (message : Option String)
  deriving DecidableEq, Repr

/-- JS `message || fallback` for an optional string: `undefined` and `''` are falsy. -/
def orElse (message : Option String) (fallback : String) : String :=
  match message with
  | some m => if m = "" then fallback else m
  | none => fallback

/-- The logged-in user of `useAuth()`. -/
structure User where
  _id : String
  role : String
  deriving DecidableEq, Repr

/-- JS `user?.role`. -/
def roleOf (user : Option User) : Option String :=
  user.map (fun u => u.role)

/-- JS `user?.role === 'admin' || user?.role === 'dispatcher'`. -/
def isAdminOrDispatcher (user : Option User) : Bool :=
  roleOf user == some "admin" || roleOf user == some "dispatcher"

/-! ## Records -/

/-- A vehicle record: the fields some request of the front end carries, and its `_id`. -/
structure Vehicle where
  _id : String
  vehicleNumber : String
  make : String
  model : String
  year : String
  type : String
  capacity : String
  capacityUnit : String
  fuelType : String
  fuelConsumption : String
  mileage : String
  status : String
  notes : Option String
  assignedDriver : Option String
  deriving DecidableEq, Repr

/-- A driver record: the fields some request of the front end carries, and its `_id`. -/
structure Driver where
  _id : String
  licenseNumber : String
  licenseExpiry : Option String
  licenseType : String
  experience : String
  status : String
  address : Option String
  currentVehicle : Option String
  deriving DecidableEq, Repr

/-- An order record: its `_id`, its status and its two assignment references. -/
structure Order where
  _id : String
  status : String
  assignedVehicle : Option String
  assignedDriver : Option String
  deriving DecidableEq, Repr

/-- The `formData` of the Vehicles page (`Vehicles.js` lines 20-33). -/
structure VehicleForm where
  vehicleNumber : String
  make : String
  model : String
  year : String
  type : String
  capacity : String
  capacityUnit : String
  fuelType : String
  fuelConsumption : String
  mileage : String
  status : String
  notes : String
  deriving DecidableEq, Repr

/-- The `formData` of the Drivers page (`Drivers.js` lines 18-25). -/
structure DriverForm where
  licenseNumber : String
  licenseExpiry : String
  licenseType : String
  experience : String
  status : String
  address : String
  deriving DecidableEq, Repr

/-! ## Requests and the server's reaction to them -/

/-- Body of a `PUT /vehicles/:id`: the object literal `{assignedDriver, status}` of the
assign and unassign handlers, or the whole `formData` of the edit form. -/
inductive VehicleBody where
  | assignment (assignedDriver : Option String) (status : String)
  | form (formData : VehicleForm)
  deriving DecidableEq, Repr

/-- Body of a `PUT /drivers/:id`: the object literal `{currentVehicle, status}` of the Vehicles
page, or the whole `formData` of the Drivers edit form. -/
inductive DriverBody where
  | assignment (currentVehicle : Option String) (status : String)
  | form (formData : DriverForm)
  deriving DecidableEq, Repr

/-- The writing requests the three pages send. -/
inductive Request where
  | putVehicle (id : String) (body : VehicleBody)
  | postVehicle (body : VehicleForm)
  | putDriver (id : String) (body : DriverBody)
  | putOrder (id : String) (status : String)
  | assignOrder (id : String) (vehicleId driverId : String)
  | deleteOrder (id : String)
  deriving DecidableEq, Repr

/-- The record obtained by overwriting the fields carried by a vehicle update. -/
def VehicleBody.applyTo (body : VehicleBody) (v : Vehicle) : Vehicle :=
  match body with
  | .assignment d s => { v with assignedDriver := d, status := s }
  | .form f =>
    { v with
      vehicleNumber := f.vehicleNumber, make := f.make, model := f.model, year := f.year,
      type := f.type, capacity := f.capacity, capacityUnit := f.capacityUnit,
      fuelType := f.fuelType, fuelConsumption := f.fuelConsumption, mileage := f.mileage,
      status := f.status, notes := some f.notes }

/-- The record obtained by overwriting the fields carried by a driver update. -/
def DriverBody.applyTo (body : DriverBody) (d : Driver) : Driver :=
  match body with
  | .assignment v s => { d with currentVehicle := v, status := s }
  | .form f =>
    { d with
      licenseNumber := f.licenseNumber, licenseExpiry := some f.licenseExpiry,
      licenseType := f.licenseType, experience := f.experience, status := f.status,
      address := some f.address }

/-- The keys of the object a vehicle update carries. -/
def VehicleBody.keys : VehicleBody → List String
  | .assignment _ _ => ["assignedDriver", "status"]
  | .form _ =>
    ["vehicleNumber", "make", "model", "year", "type", "capacity", "capacityUnit", "fuelType",
     "fuelConsumption", "mileage", "status", "notes"]

/-- The keys of the object a driver update carries. -/
def DriverBody.keys : DriverBody → List String
  | .assignment _ _ => ["currentVehicle", "status"]
  | .form _ =>
    ["licenseNumber", "licenseExpiry", "licenseType", "experience", "status", "address"]

/-- The keys of the body of a request (`DELETE` has no body). -/
def Request.keys : Request → List String
  | .putVehicle _ body => body.keys
  | .postVehicle body => (VehicleBody.form body).keys
  | .putDriver _ body => body.keys
  | .putOrder _ _ => ["status"]
  | .assignOrder _ _ _ => ["vehicleId", "driverId"]
  | .deleteOrder _ => []

/-- The fields of a vehicle record other than its id, which the URL carries. -/
def Vehicle.fieldNames : List String :=
  ["vehicleNumber", "make", "model", "year", "type", "capacity", "capacityUnit", "fuelType",
   "fuelConsumption", "mileage", "status", "notes", "assignedDriver"]

/-- The fields of a driver record other than its id, which the URL carries. -/
def Driver.fieldNames : List String :=
  ["licenseNumber", "licenseExpiry", "licenseType", "experience", "status", "address",
   "currentVehicle"]

/-- The fields of an order record other than its id, which the URL carries. -/
def Order.fieldNames : List String :=
  ["status", "assignedVehicle", "assignedDriver"]

/-- The fields of the record a request writes. -/
def Request.entityFields : Request → List String
  | .putVehicle _ _ => Vehicle.fieldNames
  | .postVehicle _ => Vehicle.fieldNames
  | .putDriver _ _ => Driver.fieldNames
  | .putOrder _ _ => Order.fieldNames
  | .assignOrder _ _ _ => Order.fieldNames
  | .deleteOrder _ => Order.fieldNames

/-- A request carries a complete snapshot when its body has every field of the record it
writes. -/
def Request.isSnapshot (r : Request) : Bool :=
  r.entityFields.all (fun k => r.keys.contains k)

/-- The record a `POST /vehicles` creates from the form, under the id the server gives it. -/
def Vehicle.ofForm (id : String) (f : VehicleForm) : Vehicle :=
  { _id := id, vehicleNumber := f.vehicleNumber, make := f.make, model := f.model,
    year := f.year, type := f.type, capacity := f.capacity, capacityUnit := f.capacityUnit,
    fuelType := f.fuelType, fuelConsumption := f.fuelConsumption, mileage := f.mileage,
    status := f.status, notes := some f.notes, assignedDriver := none }

/-- The records held by the REST server. -/
structure Server where
  vehicles : List Vehicle
  drivers : List Driver
  orders : List Order
  deriving DecidableEq, Repr

/-- The server after a `PUT /vehicles/:id` that resolved. -/
def Server.putVehicle (sv : Server) (id : String) (body : VehicleBody) : Server :=
  { sv with vehicles := sv.vehicles.map (fun v => if v._id = id then body.applyTo v else v) }

/-- The server after a `PUT /drivers/:id` that resolved. -/
def Server.putDriver (sv : Server) (id : String) (body : DriverBody) : Server :=
  { sv with drivers := sv.drivers.map (fun d => if d._id = id then body.applyTo d else d) }

/-- The server after a `PUT /orders/:id` with body `{status}` that resolved. -/
def Server.putOrder (sv : Server) (id : String) (status : String) : Server :=
  { sv with
    orders := sv.orders.map (fun o => if o._id = id then { o with status := status } else o) }

/-- The server after a `POST /vehicles` that resolved; `createdId` is the id the server gives
to the record it creates. -/
def Server.postVehicle (sv : Server) (createdId : String) (body : VehicleForm) : Server :=
  { sv with vehicles := sv.vehicles ++ [Vehicle.ofForm createdId body] }

/-- The server after a `DELETE /orders/:id` that resolved. -/
def Server.deleteOrder (sv : Server) (id : String) : Server :=
  { sv with orders := sv.orders.filter (fun o => o._id != id) }

/-- The server after it accepted one request. `createdId` is the id it gives to a record it
creates; `assigned` is what it does when it accepts `PUT /orders/:id/assign`, which is not in
this repository. -/
def Server.accept (createdId : String)
    (assigned : Server → String → String → String → Server) (sv : Server) : Request → Server
  | .putVehicle id body => sv.putVehicle id body
  | .postVehicle body => sv.postVehicle createdId body
  | .putDriver id body => sv.putDriver id body
  | .putOrder id status => sv.putOrder id status
  | .assignOrder id vehicleId driverId => assigned sv id vehicleId driverId
  | .deleteOrder id => sv.deleteOrder id

/-- Every way to merge two sequences that keeps the order within each of them. -/
def interleavings {α : Type} : List α → List α → List (List α)
  | [], ys => [ys]
  | x :: xs, [] => [x :: xs]
  | x :: xs, y :: ys =>
    (interleavings xs (y :: ys)).map (fun l => x :: l)
      ++ (interleavings (x :: xs) ys).map (fun l => y :: l)
termination_by xs ys => xs.length + ys.length

/-- Lists a page re-fetches with a `GET` after a write. -/
inductive Resource where
  | vehicles
  | availableVehicles
  | availableDrivers
  | drivers
  | orders
  deriving DecidableEq, Repr

/-- What a handler does that can be observed, in program order. -/
inductive Effect where
  | confirm (question : String)
  | request (r : Request)
  | load (what : Resource)
  | consoleError (label : String)
  | alert (message : String)
  deriving DecidableEq, Repr

/-- Result of running a handler: page state, server records and trace. -/
structure Run (σ : Type) where
  state : σ
  server : Server
  trace : List Effect

/-- The requests of a trace, in the order they were sent. -/
def sent (trace : List Effect) : List Request :=
  trace.filterMap (fun e => match e with
    | .request r => some r
    | _ => none)

/-- The messages a trace showed with `alert`, in order. -/
def alerts (trace : List Effect) : List String :=
  trace.filterMap (fun e => match e with
    | .alert m => some m
    | _ => none)

/-- The `catch` block of a handler: `console.error(label, error)` and
`alert(error.response?.data?.message || fallback)`. -/
def caught (label : String) (message : Option String) (fallback : String) : List Effect :=
  [.consoleError label, .alert (orElse message fallback)]

/-! ## `Vehicles.js` -/

namespace Vehicles

/-- The `useState` cells of the page that its handlers read or write. -/
structure State where
  openDialog : Bool
  openAssignDialog : Bool
  editMode : Bool
  currentVehicle : Option Vehicle
  selectedDriver : String
  formData : VehicleForm
  deriving DecidableEq, Repr

/-- The empty form (`Vehicles.js` lines 20-33 and 79-92). -/
def emptyForm : VehicleForm :=
  { vehicleNumber := "", make := "", model := "", year := "", type := "truck", capacity := "",
    capacityUnit := "kg", fuelType := "diesel", fuelConsumption := "", mileage := "",
    status := "available", notes := "" }

/-- The page as first rendered. -/
def initial : State :=
  { openDialog := false, openAssignDialog := false, editMode := false, currentVehicle := none,
    selectedDriver := "", formData := emptyForm }

/-- The values of the `MenuItem`s of the Status select of the form (lines 390-395). -/
def statusOptions : List String :=
  ["available", "in-use", "maintenance", "out-of-service"]

/-- Handler `handleOpenDialog(vehicle = null)` (lines 58-95). -/
def handleOpenDialog (vehicle : Option Vehicle) (st : State) : State :=
  match vehicle with
  | some v =>
    { st with
      editMode := true, currentVehicle := some v,
      formData :=
        { vehicleNumber := v.vehicleNumber, make := v.make, model := v.model, year := v.year,
          type := v.type, capacity := v.capacity, capacityUnit := v.capacityUnit,
          fuelType := v.fuelType, fuelConsumption := v.fuelConsumption, mileage := v.mileage,
          status := v.status, notes := orElse v.notes "" },
      openDialog := true }
  | none =>
    { st with editMode := false, currentVehicle := none, formData := emptyForm,
              openDialog := true }

/-- Handler `handleCloseDialog()` (lines 97-99). -/
def handleCloseDialog (st : State) : State :=
  { st with openDialog := false }

/-- Handler `handleChange(e)` (lines 101-106) for `e.target.name = name` and
`e.target.value = value`; the inputs of the form carry the twelve names below. -/
def handleChange (name value : String) (st : State) : State :=
  let f := st.formData
  { st with formData :=
      if name = "vehicleNumber" then { f with vehicleNumber := value }
      else if name = "make" then { f with make := value }
      else if name = "model" then { f with model := value }
      else if name = "year" then { f with year := value }
      else if name = "type" then { f with type := value }
      else if name = "capacity" then { f with capacity := value }
      else if name = "capacityUnit" then { f with capacityUnit := value }
      else if name = "fuelType" then { f with fuelType := value }
      else if name = "fuelConsumption" then { f with fuelConsumption := value }
      else if name = "mileage" then { f with mileage := value }
      else if name = "status" then { f with status := value }
      else if name = "notes" then { f with notes := value }
      else f }

/-- Handler `handleSubmit(e)` (lines 108-122). `r` is the outcome of the awaited `put` or
`post`. Reading `currentVehicle._id` of a `null` vehicle throws inside the `try`. -/
def handleSubmit (createdId : String) (r : Response) (st : State) (sv : Server) : Run State :=
  let fallback := "Error saving vehicle"
  let label := "Error saving vehicle:"
  if st.editMode then
    match st.currentVehicle with
    | none => ⟨st, sv, caught label none fallback⟩
    | some v =>
      let req := Request.putVehicle v._id (.form st.formData)
      match r with
      | .fail m => ⟨st, sv, [.request req] ++ caught label m fallback⟩
      | .ok =>
        ⟨handleCloseDialog st, sv.putVehicle v._id (.form st.formData),
          [.request req, .load .vehicles]⟩
  else
    let req := Request.postVehicle st.formData
    match r with
    | .fail m => ⟨st, sv, [.request req] ++ caught label m fallback⟩
    | .ok =>
      ⟨handleCloseDialog st, sv.postVehicle createdId st.formData,
        [.request req, .load .vehicles]⟩

/-- Handler `handleOpenAssignDialog(vehicle)` (lines 137-141). -/
def handleOpenAssignDialog (vehicle : Vehicle) (st : State) : State :=
  { st with currentVehicle := some vehicle, selectedDriver := "", openAssignDialog := true }

/-- Setter `setSelectedDriver(e.target.value)`, the `onChange` of the driver select
(line 416). -/
def setSelectedDriver (value : String) (st : State) : State :=
  { st with selectedDriver := value }

/-- Handler `handleAssignDriver()` (lines 143-168). `r1` is the outcome of the vehicle `put`,
`r2` of the driver `put` (awaited only after the first resolved). -/
def handleAssignDriver (r1 r2 : Response) (st : State) (sv : Server) : Run State :=
  let fallback := "Error assigning driver"
  let label := "Error assigning driver:"
  if st.selectedDriver = "" then
    ⟨st, sv, [.alert "Please select a driver"]⟩
  else
    match st.currentVehicle with
    | none => ⟨st, sv, caught label none fallback⟩
    | some v =>
      let req1 := Request.putVehicle v._id (.assignment (some st.selectedDriver) "in-use")
      match r1 with
      | .fail m => ⟨st, sv, [.request req1] ++ caught label m fallback⟩
      | .ok =>
        let sv1 := sv.putVehicle v._id (.assignment (some st.selectedDriver) "in-use")
        let req2 := Request.putDriver st.selectedDriver (.assignment (some v._id) "on-duty")
        match r2 with
        | .fail m => ⟨st, sv1, [.request req1, .request req2] ++ caught label m fallback⟩
        | .ok =>
          ⟨{ st with openAssignDialog := false },
            sv1.putDriver st.selectedDriver (.assignment (some v._id) "on-duty"),
            [.request req1, .request req2, .load .vehicles, .load .availableDrivers,
             .alert "Driver assigned successfully!"]⟩

/-- Handler `handleUnassignDriver(vehicle)` (lines 170-195). `confirmed` is what
`window.confirm` returns. Reading `vehicle.assignedDriver._id` of a `null` reference throws
inside the `try`, before any request. -/
def handleUnassignDriver (vehicle : Vehicle) (confirmed : Bool) (r1 r2 : Response)
    (st : State) (sv : Server) : Run State :=
  let fallback := "Error unassigning driver"
  let label := "Error unassigning driver:"
  let ask := Effect.confirm "Are you sure you want to unassign the driver from this vehicle?"
  if !confirmed then
    ⟨st, sv, [ask]⟩
  else
    match vehicle.assignedDriver with
    | none => ⟨st, sv, [ask] ++ caught label none fallback⟩
    | some driverId =>
      let req1 := Request.putVehicle vehicle._id (.assignment none "available")
      match r1 with
      | .fail m => ⟨st, sv, [ask, .request req1] ++ caught label m fallback⟩
      | .ok =>
        let sv1 := sv.putVehicle vehicle._id (.assignment none "available")
        let req2 := Request.putDriver driverId (.assignment none "available")
        match r2 with
        | .fail m => ⟨st, sv1, [ask, .request req1, .request req2] ++ caught label m fallback⟩
        | .ok =>
          ⟨st, sv1.putDriver driverId (.assignment none "available"),
            [ask, .request req1, .request req2, .load .vehicles, .load .availableDrivers,
             .alert "Driver unassigned successfully!"]⟩

/-- The buttons of a vehicle card (lines 255-323). -/
inductive Action where
  | unassign
  | assignDriver
  | edit
  | delete
  deriving DecidableEq, Repr

/-- The buttons rendered on the card of `vehicle` for `user` (lines 255-323): `Unassign` in the
branch where `vehicle.assignedDriver` is truthy, `Assign Driver` in the other branch, then the
edit and delete icons. -/
def cardActions (user : Option User) (vehicle : Vehicle) : List Action :=
  (if vehicle.assignedDriver.isSome then
    (if isAdminOrDispatcher user then [.unassign] else [])
  else
    (if isAdminOrDispatcher user then [.assignDriver] else []))
  ++ (if isAdminOrDispatcher user then [.edit, .delete] else [])

/-- The `Assign Driver` button of the dialog is `disabled={!selectedDriver}` (line 438). -/
def assignEnabled (st : State) : Bool :=
  st.selectedDriver != ""

end Vehicles

/-! ## `Drivers.js` -/

namespace Drivers

/-- The `useState` cells of the page that its handlers read or write. -/
structure State where
  openDialog : Bool
  currentDriver : Option Driver
  formData : DriverForm
  deriving DecidableEq, Repr

/-- The page as first rendered (lines 16-25). -/
def initial : State :=
  { openDialog := false, currentDriver := none,
    formData := { licenseNumber := "", licenseExpiry := "", licenseType := "", experience := "",
                  status := "available", address := "" } }

/-- The values of the `MenuItem`s of the Status select of the form (lines 249-252). -/
def statusOptions : List String :=
  ["available", "on-duty", "off-duty", "on-leave"]

/-- JS `s.split('T')[0]`: the text before the first `T`, all of it when there is none. -/
def beforeT (s : String) : String :=
  String.mk (s.data.takeWhile (fun c => c != 'T'))

/-- Handler `handleOpenDialog(driver)` (lines 40-51). -/
def handleOpenDialog (driver : Driver) (st : State) : State :=
  { st with
    currentDriver := some driver,
    formData :=
      { licenseNumber := driver.licenseNumber,
        licenseExpiry :=
          match driver.licenseExpiry with
          | some e => if e = "" then "" else beforeT e
          | none => "",
        licenseType := driver.licenseType,
        experience := driver.experience,
        status := driver.status,
        address := orElse driver.address "" },
    openDialog := true }

/-- Handler `handleCloseDialog()` (lines 53-55). -/
def handleCloseDialog (st : State) : State :=
  { st with openDialog := false }

/-- Handler `handleChange(e)` (lines 57-62) for `e.target.name = name` and
`e.target.value = value`; the inputs of the form carry the six names below. -/
def handleChange (name value : String) (st : State) : State :=
  let f := st.formData
  { st with formData :=
      if name = "licenseNumber" then { f with licenseNumber := value }
      else if name = "licenseExpiry" then { f with licenseExpiry := value }
      else if name = "licenseType" then { f with licenseType := value }
      else if name = "experience" then { f with experience := value }
      else if name = "status" then { f with status := value }
      else if name = "address" then { f with address := value }
      else f }

/-- Handler `handleSubmit(e)` (lines 64-75). `r` is the outcome of the awaited `put`. Reading
`currentDriver._id` of a `null` driver throws inside the `try`. -/
def handleSubmit (r : Response) (st : State) (sv : Server) : Run State :=
  let fallback := "Error updating driver"
  let label := "Error updating driver:"
  match st.currentDriver with
  | none => ⟨st, sv, caught label none fallback⟩
  | some d =>
    let req := Request.putDriver d._id (.form st.formData)
    match r with
    | .fail m => ⟨st, sv, [.request req] ++ caught label m fallback⟩
    | .ok =>
      ⟨handleCloseDialog st, sv.putDriver d._id (.form st.formData),
        [.request req, .load .drivers, .alert "Driver updated successfully!"]⟩

end Drivers

/-! ## `Orders.js` -/

namespace Orders

/-- The `assignData` cell (lines 43-46). -/
structure AssignData where
  vehicleId : String
  driverId : String
  deriving DecidableEq, Repr

/-- The `useState` cells of the page that the handlers below read or write. -/
structure State where
  openAssignDialog : Bool
  currentOrder : Option Order
  assignData : AssignData
  deriving DecidableEq, Repr

/-- The page as first rendered (lines 17-18 and 43-46). -/
def initial : State :=
  { openAssignDialog := false, currentOrder := none,
    assignData := { vehicleId := "", driverId := "" } }

/-- Handler `handleOpenAssignDialog(order)` (lines 146-150). -/
def handleOpenAssignDialog (order : Order) (st : State) : State :=
  { st with currentOrder := some order, assignData := { vehicleId := "", driverId := "" },
            openAssignDialog := true }

/-- Handler `handleUpdateStatus(orderId, newStatus)` (lines 166-175). `r` is the outcome of
the awaited `put`. -/
def handleUpdateStatus (orderId newStatus : String) (r : Response) (st : State) (sv : Server) :
    Run State :=
  let req := Request.putOrder orderId newStatus
  match r with
  | .fail m => ⟨st, sv, [.request req] ++ caught "Error updating order:" m "Error updating order"⟩
  | .ok => ⟨st, sv.putOrder orderId newStatus,
      [.request req, .load .orders, .alert "Order status updated!"]⟩

/-- JS `name.split('.')` on the characters of `name`. -/
def splitDots : List Char → List (List Char)
  | [] => [[]]
  | c :: cs =>
    match splitDots cs with
    | [] => [[]]
    | segment :: rest => if c = '.' then [] :: segment :: rest else (c :: segment) :: rest

/-- A value a top-level field of `formData` holds: a text, or an object. An object is given by
the text it spreads (`{ ...s }`, the empty text when it spreads none) and by the fields set on
it, which come before the fields of the spread. -/
inductive Field where
  | text (s : String)
  | object (spreads : String) (fields : String → Option String)

/-- The `formData` cell of the Orders page, by its property reads: `none` is `undefined`. -/
abbrev FormData := String → Option Field

/-- The `formData` of the page as first rendered (lines 19-42). -/
def initialForm : FormData := fun key =>
  if key = "customer" then
    some (.object "" (fun k =>
      if k = "name" ∨ k = "phone" ∨ k = "email" ∨ k = "address" then some "" else none))
  else if key = "pickupLocation" then
    some (.object "" (fun k => if k = "address" then some "" else none))
  else if key = "deliveryLocation" then
    some (.object "" (fun k => if k = "address" then some "" else none))
  else if key = "cargoDetails" then
    some (.object "" (fun k =>
      if k = "description" ∨ k = "weight" ∨ k = "quantity" then some "" else none))
  else if key = "priority" then some (.text "medium")
  else if key = "distance" ∨ key = "estimatedDeliveryTime" ∨ key = "cost" ∨ key = "notes" then
    some (.text "")
  else none

/-- JS `{ ...x }` for what a top-level field holds: the text the object spreads and the
fields set on it. Spreading `undefined` gives the empty object, spreading a text gives the
object of its characters by index, spreading an object copies it. -/
def spread : Option Field → String × (String → Option String)
  | none => ("", fun _ => none)
  | some (.text s) => (s, fun _ => none)
  | some (.object s fields) => (s, fields)

/-- The `parent` of `const [parent, child] = name.split('.')` (line 117). -/
def parentOf (name : String) : String :=
  String.mk ((splitDots name.data).headD [])

/-- The `child` of `const [parent, child] = name.split('.')` (line 117). -/
def childOf (name : String) : String :=
  String.mk ((splitDots name.data).tail.headD [])

/-- Handler `handleChange(e)` (lines 113-131) for `e.target.name = name` and
`e.target.value = value`, for every name: the keys written are computed from `name`. -/
def handleChange (name value : String) (formData : FormData) : FormData :=
  if '.' ∈ name.data then
    fun key =>
      if key = parentOf name then
        some (.object (spread (formData (parentOf name))).1
          (fun k =>
            if k = childOf name then some value
            else (spread (formData (parentOf name))).2 k))
      else formData key
  else
    fun key => if key = name then some (.text value) else formData key

/-- JS `formData[parent][child]` for a field set on the object that `formData[parent]` is;
`none` when there is no such object or no such field on it. -/
def FormData.own (formData : FormData) (parent child : String) : Option String :=
  match formData parent with
  | some (.object _ fields) => fields child
  | _ => none

/-- The text a top-level field holds, `none` when it holds no text. -/
def FormData.textOf (formData : FormData) (name : String) : Option String :=
  match formData name with
  | some (.text s) => some s
  | _ => none

/-- The `onChange` of the vehicle select of the assign dialog (line 547):
`setAssignData({ ...assignData, vehicleId: e.target.value })`. -/
def setVehicleId (value : String) (st : State) : State :=
  { st with assignData := { st.assignData with vehicleId := value } }

/-- The `onChange` of the driver select of the assign dialog (line 563):
`setAssignData({ ...assignData, driverId: e.target.value })`. -/
def setDriverId (value : String) (st : State) : State :=
  { st with assignData := { st.assignData with driverId := value } }

/-- The `Assign` button of the dialog is
`disabled={!assignData.vehicleId || !assignData.driverId}` (line 581). -/
def assignDisabled (st : State) : Bool :=
  st.assignData.vehicleId == "" || st.assignData.driverId == ""

/-- Handler `handleAssign()` (lines 152-164). `r` is the outcome of the awaited `put`; what the
server does to its records when it accepts `PUT /orders/:id/assign` is not in this repository
and is the argument `assigned` (of the records, the order id, the vehicle id and the driver
id). Reading `currentOrder._id` of a `null` order throws inside the `try`. -/
def handleAssign (assigned : Server → String → String → String → Server) (r : Response)
    (st : State) (sv : Server) : Run State :=
  let fallback := "Error assigning order"
  let label := "Error assigning order:"
  match st.currentOrder with
  | none => ⟨st, sv, caught label none fallback⟩
  | some o =>
    let req := Request.assignOrder o._id st.assignData.vehicleId st.assignData.driverId
    match r with
    | .fail m => ⟨st, sv, [.request req] ++ caught label m fallback⟩
    | .ok =>
      ⟨{ st with openAssignDialog := false },
        assigned sv o._id st.assignData.vehicleId st.assignData.driverId,
        [.request req, .load .orders, .load .availableVehicles, .load .availableDrivers,
         .alert "Order assigned successfully!"]⟩

/-- Handler `handleDelete(orderId)` (lines 177-190). `confirmed` is what `window.confirm`
returns, `r` the outcome of the awaited `delete`. -/
def handleDelete (orderId : String) (confirmed : Bool) (r : Response) (st : State)
    (sv : Server) : Run State :=
  let ask := Effect.confirm
    "Are you sure you want to delete this order? This action cannot be undone."
  let req := Request.deleteOrder orderId
  if !confirmed then
    ⟨st, sv, [ask]⟩
  else
    match r with
    | .fail m =>
      ⟨st, sv, [ask, .request req] ++ caught "Error deleting order:" m "Error deleting order"⟩
    | .ok =>
      ⟨st, sv.deleteOrder orderId,
        [ask, .request req, .alert "Order deleted successfully!", .load .orders]⟩

/-- The `onClick` of a button of an order card (lines 307-349). -/
inductive Action where
  | openAssignDialog
  | updateStatus (newStatus : String)
  | delete
  deriving DecidableEq, Repr

/-- The buttons rendered on the card of `order` for `user` (lines 307-349), top to bottom:
`Assign Driver`, `Start Delivery`, `Complete Delivery`, `Delete`. -/
def cardActions (user : Option User) (order : Order) : List Action :=
  (if order.status = "pending" ∧ isAdminOrDispatcher user = true
    then [.openAssignDialog] else [])
  ++ (if order.status = "assigned" ∧ roleOf user = some "driver"
    then [.updateStatus "in-progress"] else [])
  ++ (if order.status = "in-progress" ∧ roleOf user = some "driver"
    then [.updateStatus "completed"] else [])
  ++ (if isAdminOrDispatcher user = true then [.delete] else [])

/-- The status an action asks the server to give the order: `handleUpdateStatus` names it in
its body; the assign dialog ends in `PUT /orders/:id/assign`, the assignment of the order;
deleting is not a change of status. -/
def Action.target : Action → Option String
  | .openAssignDialog => some "assigned"
  | .updateStatus newStatus => some newStatus
  | .delete => none

end Orders

/-! ## `services/socket.js` -/

namespace Socket

/-- What the module does to the socket.io library, in program order: `io(SOCKET_URL)` giving
the connection `c`, `c.emit(event, arg)` and `c.disconnect()`. -/
inductive Event where
  | io (c : Nat)
  | emit (c : Nat) (event : String) (arg : String)
  | disconnect (c : Nat)
  deriving DecidableEq, Repr

/-- The connection an event is about. -/
def Event.conn : Event → Nat
  | .io c => c
  | .emit c _ _ => c
  | .disconnect c => c

/-- The module: its variable `socket` (line 5), the number of connections `io` has made so
far, which names the object the next call of `io` makes, and what was done to the library. -/
structure State where
  socket : Option Nat
  made : Nat
  log : List Event
  deriving DecidableEq, Repr

/-- The module as loaded: `let socket = null`. -/
def initial : State :=
  { socket := none, made := 0, log := [] }

/-- Function `connectSocket(userId)` (lines 7-13): the module afterwards and the value
returned. -/
def connectSocket (userId : String) (s : State) : State × Option Nat :=
  match s.socket with
  | some c => (s, some c)
  | none =>
    ({ socket := some s.made, made := s.made + 1,
       log := s.log ++ [.io s.made, .emit s.made "join" userId] },
     some s.made)

/-- Function `disconnectSocket()` (lines 15-20). -/
def disconnectSocket (s : State) : State :=
  match s.socket with
  | some c => { s with socket := none, log := s.log ++ [.disconnect c] }
  | none => s

/-- Function `getSocket()` (line 22). -/
def getSocket (s : State) : Option Nat :=
  s.socket

/-- A call of one of the three exported functions. -/
inductive Call where
  | connectSocket (userId : String)
  | disconnectSocket
  | getSocket
  deriving DecidableEq, Repr

/-- The module after one call. -/
def step (s : State) : Call → State
  | .connectSocket userId => (connectSocket userId s).1
  | .disconnectSocket => disconnectSocket s
  | .getSocket => s

/-- The module after a sequence of calls, from the module as loaded. -/
def run (calls : List Call) : State :=
  calls.foldl step initial

/-- The connections of a log that `io` made. -/
def created (log : List Event) : List Nat :=
  log.filterMap (fun e => match e with
    | .io c => some c
    | _ => none)

/-- The connections of a log that were made and not disconnected since. -/
def live (log : List Event) : List Nat :=
  (created log).filter (fun c => !log.contains (.disconnect c))

/-- The arguments of the `join` events a log has on the connection `c`, in order. -/
def joins (log : List Event) (c : Nat) : List String :=
  log.filterMap (fun e => match e with
    | .emit c' event arg => if c' = c ∧ event = "join" then some arg else none
    | _ => none)

/-- What holds of the module after every sequence of calls: the events of the log are about
connections already made, and the live connections are the one `socket` holds, if any. -/
def Invariant (s : State) : Prop :=
  (∀ e ∈ s.log, e.conn < s.made) ∧ live s.log = s.socket.toList

end Socket

/-! ## `Communication.js` -/

namespace Communication

/-- A chat message as the page reads it: `sender` is `message.sender._id`, `recipient` is
`message.recipient`. -/
structure Message where
  _id : String
  sender : String
  recipient : String
  message : String
  deriving DecidableEq, Repr

/-- The `useState` cells of the page that the listener reads or writes. -/
structure State where
  selectedUser : Option User
  messages : List Message
  newMessage : String
  deriving DecidableEq, Repr

/-- The condition of the `newMessage` listener (lines 24-25):
`selectedUser && (message.sender._id === selectedUser._id || message.recipient === user._id)`.
-/
def accepts (user : User) (selectedUser : Option User) (message : Message) : Bool :=
  match selectedUser with
  | some x => message.sender == x._id || message.recipient == user._id
  | none => false

/-- The `newMessage` listener the effect registers (lines 23-28). -/
def onNewMessage (user : User) (message : Message) (st : State) : State :=
  if accepts user st.selectedUser message then
    { st with messages := st.messages ++ [message] }
  else st

/-- The page after the `newMessage` events `events` arrived in this order. The effect registers
the listener only on a socket that `getSocket()` returned (line 22); with `null` nothing
listens. -/
def receive (socket : Option Nat) (user : User) (events : List Message) (st : State) : State :=
  match socket with
  | some _ => events.foldl (fun s m => onNewMessage user m s) st
  | none => st

/-- What a handler of the page does that can be observed, in program order. -/
inductive Did where
  | confirm (question : String)
  | post (recipient message type : String)
  | delete (messageId : String)
  | consoleError (label : String)
  | alert (message : String)
  deriving DecidableEq, Repr

/-- Result of running a handler of the page: the page afterwards and what it did. -/
structure Outcome where
  state : State
  trace : List Did
  deriving DecidableEq, Repr

/-- The code points JS `trim` strips: WhiteSpace and LineTerminator of the language. -/
def isJsSpace (c : Char) : Bool :=
  c.toNat ∈ [9, 10, 11, 12, 13, 32, 160, 5760, 8232, 8233, 8239, 8287, 12288, 65279]
    || (8192 ≤ c.toNat && c.toNat ≤ 8202)

/-- JS `!s.trim()`: the text is empty once trimmed. -/
def blank (s : String) : Bool :=
  s.data.all isJsSpace

/-- The `Send` button is `disabled={!newMessage.trim()}` (line 244). -/
def sendDisabled (st : State) : Bool :=
  blank st.newMessage

/-- Handler `handleSendMessage()` (lines 69-84). `r` is the outcome of the awaited `post`: the
message the server returned, or `none` when the request rejected. -/
def handleSendMessage (r : Option Message) (st : State) : Outcome :=
  if blank st.newMessage then ⟨st, []⟩
  else
    match st.selectedUser with
    | none => ⟨st, []⟩
    | some x =>
      let req := Did.post x._id st.newMessage "direct"
      match r with
      | some data => ⟨{ st with messages := st.messages ++ [data], newMessage := "" }, [req]⟩
      | none => ⟨st, [req, .consoleError "Error sending message:"]⟩

/-- Handler `handleDeleteMessage(messageId)` (lines 93-106). `confirmed` is what
`window.confirm` returns, `r` the outcome of the awaited `delete`. -/
def handleDeleteMessage (messageId : String) (confirmed : Bool) (r : Response) (st : State) :
    Outcome :=
  let ask := Did.confirm "Are you sure you want to delete this message?"
  if !confirmed then ⟨st, [ask]⟩
  else
    match r with
    | .ok =>
      ⟨{ st with messages := st.messages.filter (fun m => m._id != messageId) },
        [ask, .delete messageId, .alert "Message deleted successfully!"]⟩
    | .fail m =>
      ⟨st, [ask, .delete messageId, .consoleError "Error deleting message:",
        .alert (orElse m "Error deleting message")]⟩

/-- The `driver.user` of every driver of a response, when each has one; with a `null` among
them reading `u._id` throws. -/
def usersOf : List (Option User) → Option (List User)
  | [] => some []
  | none :: _ => none
  | some u :: rest =>
    match usersOf rest with
    | some us => some (u :: us)
    | none => none

/-- Function `loadUsers()` (lines 38-53) on the `users` cell. `r` is what `Promise.all`
resolved to, as the `driver.user` of each driver of `GET /drivers` in the order returned, or
`none` when one of the two requests rejected. The result is the cell afterwards and whether
`console.error` was called. -/
def loadUsers (user : User) (r : Option (List (Option User))) (users : List User) :
    List User × Bool :=
  match r with
  | none => (users, true)
  | some drivers =>
    match usersOf drivers with
    | some allUsers => (allUsers.filter (fun u => u._id != user._id), false)
    | none => (users, true)

end Communication

/-! ## `Dashboard.js` -/

/-- A cost record: its `_id`, its type and its amount, taken as an exact number. -/
structure Cost where
  _id : String
  type : String
  amount : ℚ
  deriving DecidableEq, Repr

namespace Dashboard

/-- The `stats` cell (lines 13-21). -/
structure Stats where
  totalVehicles : Nat
  activeVehicles : Nat
  totalDrivers : Nat
  activeDrivers : Nat
  pendingOrders : Nat
  activeOrders : Nat
  totalCosts : ℚ
  deriving DecidableEq, Repr

/-- The page as first rendered. -/
def initial : Stats :=
  { totalVehicles := 0, activeVehicles := 0, totalDrivers := 0, activeDrivers := 0,
    pendingOrders := 0, activeOrders := 0, totalCosts := 0 }

/-- The `data` of the four responses of `Promise.all` (lines 29-34). -/
structure Loaded where
  vehicles : List Vehicle
  drivers : List Driver
  orders : List Order
  costs : List Cost
  deriving DecidableEq, Repr

/-- Function `loadDashboardData()` (lines 27-48). `r` is what `Promise.all` resolved to, or
`none` when one of the four requests rejected. -/
def loadDashboardData (r : Option Loaded) (stats : Stats) : Stats :=
  match r with
  | none => stats
  | some d =>
    { totalVehicles := d.vehicles.length,
      activeVehicles := (d.vehicles.filter (fun v => v.status == "in-use")).length,
      totalDrivers := d.drivers.length,
      activeDrivers := (d.drivers.filter (fun x => x.status == "on-duty")).length,
      pendingOrders := (d.orders.filter (fun o => o.status == "pending")).length,
      activeOrders := (d.orders.filter (fun o => o.status == "in-progress")).length,
      totalCosts := d.costs.foldl (fun sum c => sum + c.amount) 0 }

end Dashboard

/-! ## `Costs.js` -/

namespace Costs

/-- The total of the effect on `costs` (lines 35-38):
`costs.reduce((sum, cost) => sum + cost.amount, 0)`. -/
def totalCost (costs : List Cost) : ℚ :=
  costs.foldl (fun sum cost => sum + cost.amount) 0

/-- The object `grouped` of `getCostsByType`: its keys in the order they were added, each with
its number. The keys are cost types, values of the Type select (lines 271-277). -/
abbrev Grouped := List (String × ℚ)

/-- JS `acc[key]`: `none` for `undefined`. -/
def Grouped.get : Grouped → String → Option ℚ
  | [], _ => none
  | (k, v) :: rest, key => if k = key then some v else Grouped.get rest key

/-- JS `acc[key] = value`: the key keeps its place, a new key goes last. -/
def Grouped.set : Grouped → String → ℚ → Grouped
  | [], key, value => [(key, value)]
  | (k, v) :: rest, key, value =>
    if k = key then (k, value) :: rest else (k, v) :: Grouped.set rest key value

/-- The body of the reducer of `getCostsByType` (lines 136-140): `!acc[cost.type]` holds of
`undefined` and of `0`. -/
def addCost (acc : Grouped) (cost : Cost) : Grouped :=
  let acc1 :=
    match acc.get cost.type with
    | none => acc.set cost.type 0
    | some v => if v = 0 then acc.set cost.type 0 else acc
  acc1.set cost.type ((acc1.get cost.type).getD 0 + cost.amount)

/-- Function `getCostsByType()` (lines 134-143). -/
def getCostsByType (costs : List Cost) : Grouped :=
  costs.foldl addCost []

end Costs

/-! ## `Register.js` -/

namespace Register

/-- The `formData` of the page (lines 12-19). -/
structure Form where
  name : String
  email : String
  password : String
  confirmPassword : String
  phone : String
  role : String
  deriving DecidableEq, Repr

/-- The object `handleSubmit` passes to `register` (lines 38-44), as its keys and values in
the order written. -/
abbrev Payload := List (String × String)

/-- What the awaited `register` of the auth context resolves to: `result.success` and
`result.message`. -/
structure Result where
  success : Bool
  message : String
  deriving DecidableEq, Repr

/-- The `useState` cells of the page. -/
structure State where
  formData : Form
  error : String
  deriving DecidableEq, Repr

/-- What `handleSubmit` does besides setting the error, in program order. -/
inductive Did where
  | register (payload : Payload)
  | navigate (path : String)
  deriving DecidableEq, Repr

/-- Handler `handleSubmit(e)` (lines 29-51). `result` is what the awaited `register` resolves
to; the auth context is not among the sources and `register` is taken by its result. -/
def handleSubmit (result : Result) (st : State) : State × List Did :=
  let cleared := { st with error := "" }
  if st.formData.password ≠ st.formData.confirmPassword then
    ({ cleared with error := "Passwords do not match" }, [])
  else
    let payload : Payload :=
      [("name", st.formData.name), ("email", st.formData.email),
       ("password", st.formData.password), ("phone", st.formData.phone),
       ("role", st.formData.role)]
    if result.success then (cleared, [.register payload, .navigate "/dashboard"])
    else ({ cleared with error := result.message }, [.register payload])

end Register

/-! ## `App.js` -/

namespace App

/-- What a `PrivateRoute` renders. -/
inductive Rendered where
  | loading
  | children
  | navigate (target : String)
  deriving DecidableEq, Repr

/-- Component `PrivateRoute({ children })` (lines 29-37), for the `isAuthenticated` and
`loading` of the auth context. -/
def PrivateRoute (isAuthenticated loading : Bool) : Rendered :=
  if loading then .loading
  else if isAuthenticated then .children else .navigate "/login"

/-- The `element` of a `Route`: a page as it is, a page wrapped in `PrivateRoute`, or a
`Navigate`. -/
inductive Element where
  | page (component : String)
  | privatePage (component : String)
  | navigate (target : String)
  deriving DecidableEq, Repr

/-- The `Route`s of `App` (lines 46-114), each path with its element. -/
def routes : List (String × Element) :=
  [("/login", .page "Login"), ("/register", .page "Register"),
   ("/dashboard", .privatePage "Dashboard"), ("/vehicles", .privatePage "Vehicles"),
   ("/drivers", .privatePage "Drivers"), ("/orders", .privatePage "Orders"),
   ("/maintenance", .privatePage "Maintenance"), ("/costs", .privatePage "Costs"),
   ("/communication", .privatePage "Communication"), ("/", .navigate "/dashboard")]

end App

/-! ## The properties the specification states of the records -/

/-- Vehicle invariant of the specification (§3): `assignedDriver` is set iff
`status = in-use`. -/
def Vehicle.invariant (v : Vehicle) : Prop :=
  v.assignedDriver.isSome = true ↔ v.status = "in-use"

instance (v : Vehicle) : Decidable v.invariant :=
  inferInstanceAs (Decidable (_ ↔ _))

/-- Driver invariant of the specification (§3): `currentVehicle` is set iff
`status = on-duty`. -/
def Driver.invariant (d : Driver) : Prop :=
  d.currentVehicle.isSome = true ↔ d.status = "on-duty"

instance (d : Driver) : Decidable d.invariant :=
  inferInstanceAs (Decidable (_ ↔ _))

/-- Order lifecycle of the specification (§4.2): `pending → assigned → in-progress →
completed`, and `pending`/`assigned → cancelled`; no other edge is legal. -/
def legalEdge (source target : String) : Bool :=
  (source == "pending" && target == "assigned")
  || (source == "assigned" && target == "in-progress")
  || (source == "in-progress" && target == "completed")
  || (source == "pending" && target == "cancelled")
  || (source == "assigned" && target == "cancelled")

/-- Active orders as the specification counts them (§3): the orders whose status is
`assigned` or `in-progress`. -/
def activeOrders (orders : List Order) : List Order :=
  orders.filter (fun o => o.status == "assigned" || o.status == "in-progress")

/-- Terminal states of the specification (glossary): `completed` and `cancelled`. -/
def isTerminal (status : String) : Bool :=
  status == "completed" || status == "cancelled"

/-! ## Example records -/

/-- An available vehicle with no driver. -/
def truck : Vehicle :=
  { _id := "v1", vehicleNumber := "CA 123", make := "Isuzu", model := "NPR", year := "2020",
    type := "truck", capacity := "4000", capacityUnit := "kg", fuelType := "diesel",
    fuelConsumption := "14", mileage := "52000", status := "available", notes := none,
    assignedDriver := none }

/-- An available driver with no vehicle. -/
def thabo : Driver :=
  { _id := "d1", licenseNumber := "L-1", licenseExpiry := some "2027-01-31T00:00:00.000Z",
    licenseType := "C1", experience := "5", status := "available", address := none,
    currentVehicle := none }

/-- A server holding the free vehicle and the free driver. -/
def idleServer : Server :=
  { vehicles := [truck], drivers := [thabo], orders := [] }

/-- The vehicle and the driver after a complete assignment to each other. -/
def busyTruck : Vehicle :=
  { truck with status := "in-use", assignedDriver := some "d1" }

/-- The driver after a complete assignment to the vehicle. -/
def busyThabo : Driver :=
  { thabo with status := "on-duty", currentVehicle := some "v1" }

/-- A server holding the vehicle and the driver assigned to each other. -/
def busyServer : Server :=
  { vehicles := [busyTruck], drivers := [busyThabo], orders := [] }

/-- The Vehicles page with the assign dialog open on the free vehicle and the free driver
selected. -/
def assignDialog : Vehicles.State :=
  Vehicles.setSelectedDriver "d1" (Vehicles.handleOpenAssignDialog truck Vehicles.initial)

/-- A vehicle in maintenance with no driver. -/
def parkedTruck : Vehicle :=
  { truck with _id := "v2", status := "maintenance" }

/-- A server holding the vehicle in maintenance and the free driver. -/
def workshopServer : Server :=
  { vehicles := [parkedTruck], drivers := [thabo], orders := [] }

/-- An admin. -/
def admin : User :=
  { _id := "u1", role := "admin" }

/-- A user with the driver role. -/
def driverUser : User :=
  { _id := "u2", role := "driver" }

/-- An order being delivered. -/
def movingOrder : Order :=
  { _id := "o1", status := "in-progress", assignedVehicle := some "v1",
    assignedDriver := some "d1" }

/-- An order assigned and not yet started. -/
def assignedOrder : Order :=
  { _id := "o2", status := "assigned", assignedVehicle := some "v1",
    assignedDriver := some "d1" }

/-- A server holding the assigned pair and the order they are delivering. -/
def deliveryServer : Server :=
  { vehicles := [busyTruck], drivers := [busyThabo], orders := [movingOrder] }

/-- The Vehicles edit dialog opened on the free vehicle, with `In Use` picked in the Status
select. -/
def editTruckInUse : Vehicles.State :=
  Vehicles.handleChange "status" "in-use" (Vehicles.handleOpenDialog (some truck) Vehicles.initial)

/-- The Drivers edit dialog opened on the free driver, with `On Duty` picked in the Status
select. -/
def editThaboOnDuty : Drivers.State :=
  Drivers.handleChange "status" "on-duty" (Drivers.handleOpenDialog thabo Drivers.initial)

/-- The Vehicles page with the assign dialog open on the vehicle in maintenance and the free
driver selected. -/
def assignParkedDialog : Vehicles.State :=
  Vehicles.setSelectedDriver "d1" (Vehicles.handleOpenAssignDialog parkedTruck Vehicles.initial)

/-- A second available driver. -/
def sipho : Driver :=
  { thabo with _id := "d2", licenseNumber := "L-2" }

/-- A server holding the free vehicle and two free drivers. -/
def depotServer : Server :=
  { vehicles := [truck], drivers := [thabo, sipho], orders := [] }

/-- The Vehicles page of a second client, with the assign dialog open on the same free vehicle
and the second driver selected. -/
def assignDialogB : Vehicles.State :=
  Vehicles.setSelectedDriver "d2" (Vehicles.handleOpenAssignDialog truck Vehicles.initial)

/-- An order nobody is assigned to. -/
def pendingOrder : Order :=
  { _id := "o3", status := "pending", assignedVehicle := none, assignedDriver := none }

/-- A server holding the pending order. -/
def intakeServer : Server :=
  { vehicles := [truck], drivers := [thabo], orders := [pendingOrder] }

/-- The Orders page with the assign dialog open on the pending order and both selects set. -/
def orderAssignDialog : Orders.State :=
  Orders.setDriverId "d1"
    (Orders.setVehicleId "v1" (Orders.handleOpenAssignDialog pendingOrder Orders.initial))

/-- A chat contact. -/
def contact : User :=
  { _id := "u3", role := "driver" }

/-- The chat page of the admin with the contact selected and nothing displayed. -/
def chatWithContact : Communication.State :=
  { selectedUser := some contact, messages := [], newMessage := "" }

/-- A message to the admin from the user with the driver role, who is not the selected
contact. -/
def strayMessage : Communication.Message :=
  { _id := "m1", sender := "u2", recipient := "u1", message := "running late" }

/-- A message to the admin from the selected contact. -/
def contactMessage : Communication.Message :=
  { _id := "m2", sender := "u3", recipient := "u1", message := "loaded" }

/-- What the dashboard loads when the only order is the assigned one. -/
def oneAssignedOrder : Dashboard.Loaded :=
  { vehicles := [busyTruck], drivers := [busyThabo], orders := [assignedOrder], costs := [] }

/-- The registration form filled in, the two passwords equal. -/
def signUp : Register.State :=
  { formData := { name := "Lerato", email := "lerato@example.org", password := "s3cret",
                  confirmPassword := "s3cret", phone := "0820000000", role := "dispatcher" },
    error := "" }

/-- The registration form filled in, the confirmation mistyped. -/
def signUpMistyped : Register.State :=
  { signUp with formData := { signUp.formData with confirmPassword := "s3cre" } }

/-- The chat page of the admin with the contact selected, one message displayed and a draft
typed. -/
def chatDraft : Communication.State :=
  { selectedUser := some contact, messages := [contactMessage], newMessage := "on my way" }

/-- The message the server returns for the draft. -/
def sentMessage : Communication.Message :=
  { _id := "m3", sender := "u1", recipient := "u3", message := "on my way" }

/-- Three cost records, two of them for fuel. -/
def ledger : List Cost :=
  [{ _id := "c1", type := "fuel", amount := 100 },
   { _id := "c2", type := "toll", amount := 41 / 2 },
   { _id := "c3", type := "fuel", amount := 50 }]

/-! ## Lemmas on the server's records -/

theorem mem_putVehicle_assignment {sv : Server} {id : String} {d : Option String} {s : String}
    {x : Vehicle} (hx : x ∈ (sv.putVehicle id (.assignment d s)).vehicles) (hid : x._id = id) :
    x.assignedDriver = d ∧ x.status = s := by
  simp only [Server.putVehicle, List.mem_map] at hx
  obtain ⟨v, -, rfl⟩ := hx
  by_cases h : v._id = id
  · simp [h, VehicleBody.applyTo]
  · simp [h] at hid

theorem mem_putDriver_assignment {sv : Server} {id : String} {v : Option String} {s : String}
    {y : Driver} (hy : y ∈ (sv.putDriver id (.assignment v s)).drivers) (hid : y._id = id) :
    y.currentVehicle = v ∧ y.status = s := by
  simp only [Server.putDriver, List.mem_map] at hy
  obtain ⟨d, -, rfl⟩ := hy
  by_cases h : d._id = id
  · simp [h, DriverBody.applyTo]
  · simp [h] at hid

/-- The buttons of an order card, one by one, with the condition each is rendered under. -/
theorem Orders.mem_cardActions {user : Option User} {order : Order} {a : Orders.Action} :
    a ∈ Orders.cardActions user order ↔
      (a = .openAssignDialog ∧ order.status = "pending" ∧ isAdminOrDispatcher user = true)
      ∨ (a = .updateStatus "in-progress" ∧ order.status = "assigned"
          ∧ roleOf user = some "driver")
      ∨ (a = .updateStatus "completed" ∧ order.status = "in-progress"
          ∧ roleOf user = some "driver")
      ∨ (a = .delete ∧ isAdminOrDispatcher user = true) := by
  simp only [Orders.cardActions, List.mem_append]
  constructor
  · rintro (((h | h) | h) | h) <;> split at h <;> simp at h <;> rename_i hc <;> subst h
    · exact Or.inl ⟨rfl, hc⟩
    · exact Or.inr (Or.inl ⟨rfl, hc⟩)
    · exact Or.inr (Or.inr (Or.inl ⟨rfl, hc⟩))
    · exact Or.inr (Or.inr (Or.inr ⟨rfl, hc⟩))
  · rintro (⟨rfl, h⟩ | ⟨rfl, h⟩ | ⟨rfl, h⟩ | ⟨rfl, h⟩)
    · exact Or.inl (Or.inl (Or.inl (by simp [h])))
    · exact Or.inl (Or.inl (Or.inr (by simp [h])))
    · exact Or.inl (Or.inr (by simp [h]))
    · exact Or.inr (by simp [h])

/-! ## Assignment and release on the Vehicles page -/

/-- C1, as the code has it. Assigning a driver is all-or-nothing only when the vehicle update
fails: then no driver request is sent and no record changes. When the vehicle update succeeds
and the driver update fails, no compensating request is sent: the two `put`s are all that was
sent, every vehicle with the addressed id is left `in-use` with the selected driver, the
driver records are the ones before, and the error is alerted. -/
theorem handleAssignDriver_no_rollback (st : Vehicles.State) (sv : Server) (v : Vehicle)
    (hv : st.currentVehicle = some v) (hsel : st.selectedDriver ≠ "") :
    (∀ m r2,
      (Vehicles.handleAssignDriver (.fail m) r2 st sv).server = sv
      ∧ sent (Vehicles.handleAssignDriver (.fail m) r2 st sv).trace
          = [.putVehicle v._id (.assignment (some st.selectedDriver) "in-use")])
    ∧ (∀ m,
      sent (Vehicles.handleAssignDriver .ok (.fail m) st sv).trace
          = [.putVehicle v._id (.assignment (some st.selectedDriver) "in-use"),
             .putDriver st.selectedDriver (.assignment (some v._id) "on-duty")]
      ∧ (∀ x ∈ (Vehicles.handleAssignDriver .ok (.fail m) st sv).server.vehicles,
          x._id = v._id → x.assignedDriver = some st.selectedDriver ∧ x.status = "in-use")
      ∧ (Vehicles.handleAssignDriver .ok (.fail m) st sv).server.drivers = sv.drivers
      ∧ alerts (Vehicles.handleAssignDriver .ok (.fail m) st sv).trace
          = [orElse m "Error assigning driver"]) := by
  refine ⟨fun m r2 => ?_, fun m => ⟨?_, ?_, ?_, ?_⟩⟩
  · simp [Vehicles.handleAssignDriver, hv, hsel, sent, caught]
  · simp [Vehicles.handleAssignDriver, hv, hsel, sent, caught]
  · intro x hx hid
    simp only [Vehicles.handleAssignDriver, hv, hsel, if_false] at hx
    exact mem_putVehicle_assignment hx hid
  · simp [Vehicles.handleAssignDriver, hv, hsel, Server.putVehicle]
  · simp [Vehicles.handleAssignDriver, hv, hsel, alerts, caught]

/-- C1 at the free vehicle and the free driver. -/
theorem handleAssignDriver_no_rollback_witness :
    assignDialog.currentVehicle = some truck ∧ assignDialog.selectedDriver ≠ ""
    ∧ (Vehicles.handleAssignDriver .ok (.fail none) assignDialog idleServer).server.drivers
        = idleServer.drivers :=
  ⟨by decide, by decide,
    ((handleAssignDriver_no_rollback assignDialog idleServer truck (by decide) (by decide)).2
      none).2.2.1⟩

/-- C1 as stated fails: the vehicle update resolves, the driver update rejects, and the records
afterwards are not the records before: the vehicle is `in-use` with driver `d1` while the
driver is still `available` with no vehicle. -/
theorem handleAssignDriver_not_atomic :
    (Vehicles.handleAssignDriver .ok (.fail none) assignDialog idleServer).server ≠ idleServer
    ∧ (Vehicles.handleAssignDriver .ok (.fail none) assignDialog idleServer).server.vehicles
        = [busyTruck]
    ∧ (Vehicles.handleAssignDriver .ok (.fail none) assignDialog idleServer).server.drivers
        = [thabo] := by
  decide


/-- C2, as the code has it. Unassigning is all-or-nothing only when the vehicle update fails:
then no driver request is sent and no record changes. When the vehicle update succeeds and the
driver update fails, no compensating request is sent: the two `put`s are all that was sent,
every vehicle with the addressed id is left `available` with no driver, the driver records are
the ones before (a driver `on-duty` on that vehicle stays so), and the error is alerted. -/
theorem handleUnassignDriver_no_rollback (vehicle : Vehicle) (driverId : String)
    (st : Vehicles.State) (sv : Server) (hd : vehicle.assignedDriver = some driverId) :
    (∀ m r2,
      (Vehicles.handleUnassignDriver vehicle true (.fail m) r2 st sv).server = sv
      ∧ sent (Vehicles.handleUnassignDriver vehicle true (.fail m) r2 st sv).trace
          = [.putVehicle vehicle._id (.assignment none "available")])
    ∧ (∀ m,
      sent (Vehicles.handleUnassignDriver vehicle true .ok (.fail m) st sv).trace
          = [.putVehicle vehicle._id (.assignment none "available"),
             .putDriver driverId (.assignment none "available")]
      ∧ (∀ x ∈ (Vehicles.handleUnassignDriver vehicle true .ok (.fail m) st sv).server.vehicles,
          x._id = vehicle._id → x.assignedDriver = none ∧ x.status = "available")
      ∧ (Vehicles.handleUnassignDriver vehicle true .ok (.fail m) st sv).server.drivers
          = sv.drivers
      ∧ alerts (Vehicles.handleUnassignDriver vehicle true .ok (.fail m) st sv).trace
          = [orElse m "Error unassigning driver"]) := by
  refine ⟨fun m r2 => ?_, fun m => ⟨?_, ?_, ?_, ?_⟩⟩
  · simp [Vehicles.handleUnassignDriver, hd, sent, caught]
  · simp [Vehicles.handleUnassignDriver, hd, sent, caught]
  · intro x hx hid
    simp only [Vehicles.handleUnassignDriver, hd, Bool.not_true, Bool.false_eq_true,
      if_false] at hx
    exact mem_putVehicle_assignment hx hid
  · simp [Vehicles.handleUnassignDriver, hd, Server.putVehicle]
  · simp [Vehicles.handleUnassignDriver, hd, alerts, caught]

/-- C2 at the assigned pair. -/
theorem handleUnassignDriver_no_rollback_witness :
    busyTruck.assignedDriver = some "d1"
    ∧ (Vehicles.handleUnassignDriver busyTruck true .ok (.fail none) Vehicles.initial
        busyServer).server.drivers = busyServer.drivers :=
  ⟨by decide,
    ((handleUnassignDriver_no_rollback busyTruck "d1" Vehicles.initial busyServer
      (by decide)).2 none).2.2.1⟩

/-- C2 as stated fails: the vehicle update resolves, the driver update rejects, and the driver
is left `on-duty` pointing at vehicle `v1`, which is `available` with no assigned driver. -/
theorem handleUnassignDriver_not_atomic :
    (Vehicles.handleUnassignDriver busyTruck true .ok (.fail none) Vehicles.initial
        busyServer).server.vehicles = [truck]
    ∧ (Vehicles.handleUnassignDriver busyTruck true .ok (.fail none) Vehicles.initial
        busyServer).server.drivers = [busyThabo]
    ∧ busyThabo.status = "on-duty" ∧ busyThabo.currentVehicle = some truck._id
    ∧ truck.status = "available" ∧ truck.assignedDriver = none := by
  decide

/-- C3. For a vehicle whose assigned driver is `driverId`, a confirmed unassignment whose two
requests resolve sends the vehicle exactly `{assignedDriver: null, status: 'available'}` and
sends that driver exactly `{currentVehicle: null, status: 'available'}`, in this order and
nothing else. The records afterwards are the records before, with every vehicle of that id
`available` with no assigned driver, every driver of that id `available` with no current
vehicle, and every other record and every other field as it was; no record is added or
removed. The success is alerted and the page state is unchanged. -/
theorem handleUnassignDriver_releases_both (vehicle : Vehicle) (driverId : String)
    (st : Vehicles.State) (sv : Server) (hd : vehicle.assignedDriver = some driverId) :
    sent (Vehicles.handleUnassignDriver vehicle true .ok .ok st sv).trace
        = [.putVehicle vehicle._id (.assignment none "available"),
           .putDriver driverId (.assignment none "available")]
    ∧ (Vehicles.handleUnassignDriver vehicle true .ok .ok st sv).server.vehicles
        = sv.vehicles.map (fun x =>
            if x._id = vehicle._id then { x with assignedDriver := none, status := "available" }
            else x)
    ∧ (Vehicles.handleUnassignDriver vehicle true .ok .ok st sv).server.drivers
        = sv.drivers.map (fun y =>
            if y._id = driverId then { y with currentVehicle := none, status := "available" }
            else y)
    ∧ (Vehicles.handleUnassignDriver vehicle true .ok .ok st sv).server.orders = sv.orders
    ∧ (∀ x ∈ (Vehicles.handleUnassignDriver vehicle true .ok .ok st sv).server.vehicles,
        x._id = vehicle._id → x.assignedDriver = none ∧ x.status = "available")
    ∧ (∀ y ∈ (Vehicles.handleUnassignDriver vehicle true .ok .ok st sv).server.drivers,
        y._id = driverId → y.currentVehicle = none ∧ y.status = "available")
    ∧ (∀ x ∈ sv.vehicles, x._id = vehicle._id →
        { x with assignedDriver := none, status := "available" }
          ∈ (Vehicles.handleUnassignDriver vehicle true .ok .ok st sv).server.vehicles)
    ∧ (∀ y ∈ sv.drivers, y._id = driverId →
        { y with currentVehicle := none, status := "available" }
          ∈ (Vehicles.handleUnassignDriver vehicle true .ok .ok st sv).server.drivers)
    ∧ alerts (Vehicles.handleUnassignDriver vehicle true .ok .ok st sv).trace
        = ["Driver unassigned successfully!"]
    ∧ (Vehicles.handleUnassignDriver vehicle true .ok .ok st sv).state = st := by
  have hveh : (Vehicles.handleUnassignDriver vehicle true .ok .ok st sv).server.vehicles
      = sv.vehicles.map (fun x =>
          if x._id = vehicle._id then { x with assignedDriver := none, status := "available" }
          else x) := by
    simp [Vehicles.handleUnassignDriver, hd, Server.putVehicle, Server.putDriver,
      VehicleBody.applyTo]
  have hdrv : (Vehicles.handleUnassignDriver vehicle true .ok .ok st sv).server.drivers
      = sv.drivers.map (fun y =>
          if y._id = driverId then { y with currentVehicle := none, status := "available" }
          else y) := by
    simp [Vehicles.handleUnassignDriver, hd, Server.putVehicle, Server.putDriver,
      DriverBody.applyTo]
  refine ⟨?_, hveh, hdrv, ?_, ?_, ?_, ?_, ?_, ?_, ?_⟩
  · simp [Vehicles.handleUnassignDriver, hd, sent]
  · simp [Vehicles.handleUnassignDriver, hd, Server.putVehicle, Server.putDriver]
  · intro x hx hid
    simp only [Vehicles.handleUnassignDriver, hd, Bool.not_true, Bool.false_eq_true,
      if_false] at hx
    have hx1 : x ∈ (sv.putVehicle vehicle._id (.assignment none "available")).vehicles := by
      simpa [Server.putDriver] using hx
    exact mem_putVehicle_assignment hx1 hid
  · intro y hy hid
    simp only [Vehicles.handleUnassignDriver, hd, Bool.not_true, Bool.false_eq_true,
      if_false] at hy
    exact mem_putDriver_assignment hy hid
  · intro x hx hid
    rw [hveh]
    exact List.mem_map.mpr ⟨x, hx, by simp [hid]⟩
  · intro y hy hid
    rw [hdrv]
    exact List.mem_map.mpr ⟨y, hy, by simp [hid]⟩
  · simp [Vehicles.handleUnassignDriver, hd, alerts]
  · simp [Vehicles.handleUnassignDriver, hd]

/-- C3 at the assigned pair: the two requests are the two releases, and the records afterwards
are exactly the free vehicle and the free driver. -/
theorem handleUnassignDriver_releases_both_witness :
    busyTruck.assignedDriver = some "d1"
    ∧ sent (Vehicles.handleUnassignDriver busyTruck true .ok .ok Vehicles.initial
        busyServer).trace
        = [.putVehicle busyTruck._id (.assignment none "available"),
           .putDriver "d1" (.assignment none "available")]
    ∧ (Vehicles.handleUnassignDriver busyTruck true .ok .ok Vehicles.initial
        busyServer).server.vehicles
        = busyServer.vehicles.map (fun x =>
            if x._id = busyTruck._id then
              { x with assignedDriver := none, status := "available" }
            else x)
    ∧ (Vehicles.handleUnassignDriver busyTruck true .ok .ok Vehicles.initial
        busyServer).server = idleServer
    ∧ truck ∈ (Vehicles.handleUnassignDriver busyTruck true .ok .ok Vehicles.initial
        busyServer).server.vehicles
    ∧ thabo ∈ (Vehicles.handleUnassignDriver busyTruck true .ok .ok Vehicles.initial
        busyServer).server.drivers :=
  ⟨by decide,
    (handleUnassignDriver_releases_both busyTruck "d1" Vehicles.initial busyServer
      (by decide)).1,
    (handleUnassignDriver_releases_both busyTruck "d1" Vehicles.initial busyServer
      (by decide)).2.1,
    by decide,
    (handleUnassignDriver_releases_both busyTruck "d1" Vehicles.initial busyServer
      (by decide)).2.2.2.2.2.2.1 busyTruck (by decide) rfl,
    (handleUnassignDriver_releases_both busyTruck "d1" Vehicles.initial busyServer
      (by decide)).2.2.2.2.2.2.2.1 busyThabo (by decide) rfl⟩

/-- C4, as the code has it. On a vehicle with no assigned driver `handleUnassignDriver` sends
no request and changes neither the records nor the page; if the user declines the confirmation
nothing is reported, and if the user confirms, reading the id of the absent driver throws and
`Error unassigning driver` is alerted. The page offers `Unassign` for no such vehicle. -/
theorem handleUnassignDriver_released (vehicle : Vehicle) (confirmed : Bool) (r1 r2 : Response)
    (st : Vehicles.State) (sv : Server) (hd : vehicle.assignedDriver = none) :
    (Vehicles.handleUnassignDriver vehicle confirmed r1 r2 st sv).server = sv
    ∧ (Vehicles.handleUnassignDriver vehicle confirmed r1 r2 st sv).state = st
    ∧ sent (Vehicles.handleUnassignDriver vehicle confirmed r1 r2 st sv).trace = []
    ∧ alerts (Vehicles.handleUnassignDriver vehicle confirmed r1 r2 st sv).trace
        = (if confirmed then ["Error unassigning driver"] else [])
    ∧ ∀ user, Vehicles.Action.unassign ∉ Vehicles.cardActions user vehicle := by
  refine ⟨?_, ?_, ?_, ?_, ?_⟩
  · cases confirmed <;> simp [Vehicles.handleUnassignDriver, hd]
  · cases confirmed <;> simp [Vehicles.handleUnassignDriver, hd]
  · cases confirmed <;> simp [Vehicles.handleUnassignDriver, hd, sent, caught]
  · cases confirmed <;> simp [Vehicles.handleUnassignDriver, hd, alerts, caught, orElse]
  · intro user
    cases h : isAdminOrDispatcher user <;> simp [Vehicles.cardActions, hd, h]

/-- C4 at the free vehicle, the user declining. -/
theorem handleUnassignDriver_released_witness :
    truck.assignedDriver = none
    ∧ alerts (Vehicles.handleUnassignDriver truck false .ok .ok Vehicles.initial
        idleServer).trace = [] :=
  ⟨by decide,
    (handleUnassignDriver_released truck false .ok .ok Vehicles.initial idleServer
      (by decide)).2.2.2.1⟩

/-- C4 as stated fails: a confirmed release of the already released vehicle reports an error to
the user. -/
theorem release_of_released_vehicle_errors :
    truck.status = "available" ∧ truck.assignedDriver = none
    ∧ (Vehicles.handleUnassignDriver truck true .ok .ok Vehicles.initial idleServer).trace
        = [.confirm "Are you sure you want to unassign the driver from this vehicle?",
           .consoleError "Error unassigning driver:",
           .alert "Error unassigning driver"] := by
  decide

/-- C5. With a driver selected and both requests resolving, `handleAssignDriver` sends the
current vehicle `{assignedDriver: selectedDriver, status: 'in-use'}` and the selected driver
`{currentVehicle: vehicle id, status: 'on-duty'}`; afterwards every vehicle with that id points
at the driver and is `in-use`, and every driver with that id points back at the vehicle and is
`on-duty`. -/
theorem handleAssignDriver_back_reference (st : Vehicles.State) (sv : Server) (v : Vehicle)
    (hv : st.currentVehicle = some v) (hsel : st.selectedDriver ≠ "") :
    sent (Vehicles.handleAssignDriver .ok .ok st sv).trace
        = [.putVehicle v._id (.assignment (some st.selectedDriver) "in-use"),
           .putDriver st.selectedDriver (.assignment (some v._id) "on-duty")]
    ∧ (∀ x ∈ (Vehicles.handleAssignDriver .ok .ok st sv).server.vehicles,
        x._id = v._id → x.assignedDriver = some st.selectedDriver ∧ x.status = "in-use")
    ∧ (∀ y ∈ (Vehicles.handleAssignDriver .ok .ok st sv).server.drivers,
        y._id = st.selectedDriver → y.currentVehicle = some v._id ∧ y.status = "on-duty") := by
  refine ⟨?_, ?_, ?_⟩
  · simp [Vehicles.handleAssignDriver, hv, hsel, sent]
  · intro x hx hid
    simp only [Vehicles.handleAssignDriver, hv, hsel, if_false] at hx
    have hx1 :
        x ∈ (sv.putVehicle v._id (.assignment (some st.selectedDriver) "in-use")).vehicles := by
      simpa [Server.putDriver] using hx
    exact mem_putVehicle_assignment hx1 hid
  · intro y hy hid
    simp only [Vehicles.handleAssignDriver, hv, hsel, if_false] at hy
    exact mem_putDriver_assignment hy hid

/-- C5 at the free vehicle and the free driver: the records afterwards are the assigned pair. -/
theorem handleAssignDriver_back_reference_witness :
    assignDialog.currentVehicle = some truck ∧ assignDialog.selectedDriver ≠ ""
    ∧ (Vehicles.handleAssignDriver .ok .ok assignDialog idleServer).server = busyServer
    ∧ sent (Vehicles.handleAssignDriver .ok .ok assignDialog idleServer).trace
        = [.putVehicle truck._id (.assignment (some assignDialog.selectedDriver) "in-use"),
           .putDriver assignDialog.selectedDriver (.assignment (some truck._id) "on-duty")] :=
  ⟨by decide, by decide, by decide,
    (handleAssignDriver_back_reference assignDialog idleServer truck (by decide)
      (by decide)).1⟩


/-! ## The record invariants under the updates the pages send -/

/-- C6, as the code has it. For a vehicle record satisfying `assignedDriver is set iff
status = in-use`: the vehicle update of `handleAssignDriver` and the one of
`handleUnassignDriver` give a record that satisfies it; the update of the edit form carries
`status` and not `assignedDriver`, so the record it gives satisfies the invariant exactly when
the submitted status is `in-use` iff the record's status was. -/
theorem vehicle_invariant_under_updates (v : Vehicle) (hv : v.invariant) :
    (∀ r1 r2 st sv id body,
      Request.putVehicle id body ∈ sent (Vehicles.handleAssignDriver r1 r2 st sv).trace →
        (body.applyTo v).invariant)
    ∧ (∀ vehicle confirmed r1 r2 st sv id body,
      Request.putVehicle id body
          ∈ sent (Vehicles.handleUnassignDriver vehicle confirmed r1 r2 st sv).trace →
        (body.applyTo v).invariant)
    ∧ (∀ createdId r st sv id body,
      Request.putVehicle id body ∈ sent (Vehicles.handleSubmit createdId r st sv).trace →
        ((body.applyTo v).invariant ↔ (st.formData.status = "in-use" ↔ v.status = "in-use")))
    := by
  refine ⟨?_, ?_, ?_⟩
  · intro r1 r2 st sv id body h
    have hb : body = .assignment (some st.selectedDriver) "in-use" := by
      unfold Vehicles.handleAssignDriver at h
      by_cases hsel : st.selectedDriver = ""
      · simp [hsel, sent] at h
      · cases hc : st.currentVehicle <;> cases r1 <;> cases r2 <;>
          simp [hsel, hc, sent, caught] at h <;> exact h.2
    subst hb
    simp [VehicleBody.applyTo, Vehicle.invariant]
  · intro vehicle confirmed r1 r2 st sv id body h
    have hb : body = .assignment none "available" := by
      unfold Vehicles.handleUnassignDriver at h
      cases confirmed
      · simp [sent] at h
      · cases hc : vehicle.assignedDriver <;> cases r1 <;> cases r2 <;>
          simp [hc, sent, caught] at h <;> exact h.2
    subst hb
    simp [VehicleBody.applyTo, Vehicle.invariant]
  · intro createdId r st sv id body h
    have hb : body = .form st.formData := by
      unfold Vehicles.handleSubmit at h
      cases he : st.editMode <;> cases hc : st.currentVehicle <;> cases r <;>
        simp [he, hc, sent, caught] at h <;> exact h.2
    subst hb
    unfold Vehicle.invariant at hv ⊢
    simp only [VehicleBody.applyTo]
    rw [hv]
    exact ⟨fun h => h.symm, fun h => h.symm⟩

/-- C6 at the free vehicle: the edit form submitted with the status left `available` keeps the
invariant. -/
theorem vehicle_invariant_under_updates_witness :
    truck.invariant
    ∧ ((VehicleBody.form (Vehicles.handleOpenDialog (some truck) Vehicles.initial).formData).applyTo
        truck).invariant :=
  ⟨by decide,
    ((vehicle_invariant_under_updates truck (by decide)).2.2 "" .ok
      (Vehicles.handleOpenDialog (some truck) Vehicles.initial) idleServer "v1" _
      (by decide)).2 (by decide)⟩

/-- C6 as stated fails: the free vehicle satisfies the invariant; the edit form, opened on it
and submitted with `In Use` (an option of its Status select), leaves it `in-use` with no
assigned driver. -/
theorem edit_form_breaks_vehicle_invariant :
    truck.invariant
    ∧ "in-use" ∈ Vehicles.statusOptions
    ∧ sent (Vehicles.handleSubmit "" .ok editTruckInUse idleServer).trace
        = [.putVehicle "v1" (.form editTruckInUse.formData)]
    ∧ (Vehicles.handleSubmit "" .ok editTruckInUse idleServer).server.vehicles
        = [{ truck with status := "in-use", notes := some "" }]
    ∧ ¬ ((VehicleBody.form editTruckInUse.formData).applyTo truck).invariant := by
  decide


/-- C7, as the code has it. For a driver record satisfying `currentVehicle is set iff
status = on-duty`: the driver update of `handleAssignDriver` and the one of
`handleUnassignDriver` give a record that satisfies it; the update of the Drivers edit form
carries `status` and not `currentVehicle`, so the record it gives satisfies the invariant
exactly when the submitted status is `on-duty` iff the record's status was. -/
theorem driver_invariant_under_updates (d : Driver) (hd : d.invariant) :
    (∀ r1 r2 st sv id body,
      Request.putDriver id body ∈ sent (Vehicles.handleAssignDriver r1 r2 st sv).trace →
        (body.applyTo d).invariant)
    ∧ (∀ vehicle confirmed r1 r2 st sv id body,
      Request.putDriver id body
          ∈ sent (Vehicles.handleUnassignDriver vehicle confirmed r1 r2 st sv).trace →
        (body.applyTo d).invariant)
    ∧ (∀ r st sv id body,
      Request.putDriver id body ∈ sent (Drivers.handleSubmit r st sv).trace →
        ((body.applyTo d).invariant ↔ (st.formData.status = "on-duty" ↔ d.status = "on-duty")))
    := by
  refine ⟨?_, ?_, ?_⟩
  · intro r1 r2 st sv id body h
    have hb : ∃ v, body = .assignment (some v) "on-duty" := by
      unfold Vehicles.handleAssignDriver at h
      by_cases hsel : st.selectedDriver = ""
      · simp [hsel, sent] at h
      · cases hc : st.currentVehicle <;> cases r1 <;> cases r2 <;>
          simp [hsel, hc, sent, caught] at h <;> exact ⟨_, h.2⟩
    obtain ⟨v, rfl⟩ := hb
    simp [DriverBody.applyTo, Driver.invariant]
  · intro vehicle confirmed r1 r2 st sv id body h
    have hb : body = .assignment none "available" := by
      unfold Vehicles.handleUnassignDriver at h
      cases confirmed
      · simp [sent] at h
      · cases hc : vehicle.assignedDriver <;> cases r1 <;> cases r2 <;>
          simp [hc, sent, caught] at h <;> exact h.2
    subst hb
    simp [DriverBody.applyTo, Driver.invariant]
  · intro r st sv id body h
    have hb : body = .form st.formData := by
      unfold Drivers.handleSubmit at h
      cases hc : st.currentDriver <;> cases r <;>
        simp [hc, sent, caught] at h <;> exact h.2
    subst hb
    unfold Driver.invariant at hd ⊢
    simp only [DriverBody.applyTo]
    rw [hd]
    exact ⟨fun h => h.symm, fun h => h.symm⟩

/-- C7 at the free driver: the edit form submitted with the status left `available` keeps the
invariant. -/
theorem driver_invariant_under_updates_witness :
    thabo.invariant
    ∧ ((DriverBody.form (Drivers.handleOpenDialog thabo Drivers.initial).formData).applyTo
        thabo).invariant :=
  ⟨by decide,
    ((driver_invariant_under_updates thabo (by decide)).2.2 .ok
      (Drivers.handleOpenDialog thabo Drivers.initial) idleServer "d1" _
      (by decide)).2 (by decide)⟩

/-- C7 as stated fails: the free driver satisfies the invariant; the Drivers edit form, opened
on it and submitted with `On Duty` (an option of its Status select), leaves it `on-duty` with no
current vehicle. -/
theorem edit_form_breaks_driver_invariant :
    thabo.invariant
    ∧ "on-duty" ∈ Drivers.statusOptions
    ∧ sent (Drivers.handleSubmit .ok editThaboOnDuty idleServer).trace
        = [.putDriver "d1" (.form editThaboOnDuty.formData)]
    ∧ (Drivers.handleSubmit .ok editThaboOnDuty idleServer).server.drivers
        = [{ thabo with status := "on-duty", licenseExpiry := some "2027-01-31",
                        address := some "" }]
    ∧ ¬ ((DriverBody.form editThaboOnDuty.formData).applyTo thabo).invariant := by
  decide

/-! ## Which vehicle can be given a driver -/

/-- C8, as the code has it. The card of a vehicle offers `Assign Driver` exactly when the
vehicle has no assigned driver and the user is an admin or a dispatcher, whatever the status
of the vehicle; `handleAssignDriver` does not read the status of the current vehicle: what it
sends and reports is the same for every status, and with a driver selected its first request
sets that vehicle `in-use`. -/
theorem assign_offered_whatever_status (user : Option User) (vehicle : Vehicle) :
    (Vehicles.Action.assignDriver ∈ Vehicles.cardActions user vehicle
      ↔ vehicle.assignedDriver = none ∧ isAdminOrDispatcher user = true)
    ∧ (∀ (status : String) (r1 r2 : Response) (st : Vehicles.State) (sv : Server),
        (Vehicles.handleAssignDriver r1 r2
            { st with currentVehicle := some { vehicle with status := status } } sv).trace
          = (Vehicles.handleAssignDriver r1 r2
            { st with currentVehicle := some vehicle } sv).trace)
    ∧ (∀ (r1 r2 : Response) (st : Vehicles.State) (sv : Server), st.selectedDriver ≠ "" →
        (sent (Vehicles.handleAssignDriver r1 r2
            { st with currentVehicle := some vehicle } sv).trace).head?
          = some (.putVehicle vehicle._id (.assignment (some st.selectedDriver) "in-use")))
    := by
  refine ⟨?_, ?_, ?_⟩
  · cases hd : vehicle.assignedDriver <;> cases h : isAdminOrDispatcher user <;>
      simp [Vehicles.cardActions, hd, h]
  · intro status r1 r2 st sv
    unfold Vehicles.handleAssignDriver
    by_cases hsel : st.selectedDriver = ""
    · simp [hsel]
    · cases r1 <;> cases r2 <;> simp [hsel]
  · intro r1 r2 st sv hsel
    unfold Vehicles.handleAssignDriver
    cases r1 <;> cases r2 <;> simp [hsel, sent, caught]

/-- C8 at the vehicle in maintenance, seen by an admin with the free driver selected. -/
theorem assign_offered_whatever_status_witness :
    assignParkedDialog.selectedDriver ≠ ""
    ∧ (sent (Vehicles.handleAssignDriver .ok .ok
          { assignParkedDialog with currentVehicle := some parkedTruck } workshopServer).trace).head?
        = some (.putVehicle parkedTruck._id
            (.assignment (some assignParkedDialog.selectedDriver) "in-use")) :=
  ⟨by decide,
    (assign_offered_whatever_status (some admin) parkedTruck).2.2 .ok .ok assignParkedDialog
      workshopServer (by decide)⟩

/-- C8 as stated fails: for an admin the card of the vehicle in maintenance offers
`Assign Driver`, and the assignment made through the dialog sets that vehicle `in-use`. -/
theorem maintenance_vehicle_gets_driver :
    parkedTruck.status = "maintenance"
    ∧ Vehicles.Action.assignDriver ∈ Vehicles.cardActions (some admin) parkedTruck
    ∧ Vehicles.assignEnabled assignParkedDialog = true
    ∧ (Vehicles.handleAssignDriver .ok .ok assignParkedDialog workshopServer).server.vehicles
        = [{ parkedTruck with status := "in-use", assignedDriver := some "d1" }]
    ∧ alerts (Vehicles.handleAssignDriver .ok .ok assignParkedDialog workshopServer).trace
        = ["Driver assigned successfully!"] := by
  decide

/-! ## The order lifecycle on the Orders page -/

/-- C9. Every action the card of an order offers that changes the status asks for a legal
edge of the lifecycle from the order's status, and is offered for no order whose status is
terminal (`completed` or `cancelled`). -/
theorem offered_status_changes_are_legal (user : Option User) (order : Order)
    (a : Orders.Action) (target : String)
    (ha : a ∈ Orders.cardActions user order) (ht : a.target = some target) :
    legalEdge order.status target = true ∧ isTerminal order.status = false := by
  rcases Orders.mem_cardActions.mp ha with h | h | h | h
  · obtain ⟨rfl, hs, -⟩ := h
    simp only [Orders.Action.target, Option.some.injEq] at ht
    subst ht
    simp [legalEdge, isTerminal, hs]
  · obtain ⟨rfl, hs, -⟩ := h
    simp only [Orders.Action.target, Option.some.injEq] at ht
    subst ht
    simp [legalEdge, isTerminal, hs]
  · obtain ⟨rfl, hs, -⟩ := h
    simp only [Orders.Action.target, Option.some.injEq] at ht
    subst ht
    simp [legalEdge, isTerminal, hs]
  · obtain ⟨rfl, -⟩ := h
    simp [Orders.Action.target] at ht

/-- C9 at an assigned order seen by a driver: `Start Delivery` asks for `in-progress`. -/
theorem offered_status_changes_are_legal_witness :
    Orders.Action.updateStatus "in-progress" ∈ Orders.cardActions (some driverUser) assignedOrder
    ∧ legalEdge assignedOrder.status "in-progress" = true
    ∧ isTerminal assignedOrder.status = false :=
  ⟨by decide,
    offered_status_changes_are_legal (some driverUser) assignedOrder
      (.updateStatus "in-progress") "in-progress" (by decide) rfl⟩

/-- C10, as the code has it. `handleUpdateStatus` does not look at the order's current status:
for every order id and status it sends `PUT /orders/:id` with `{status: newStatus}` and nothing
else, and it fails exactly when the server rejects that request, alerting the server's message
(or `Error updating order`); when the server accepts, it reports `Order status updated!`. The
page itself offers no self-loop: no card offers a change to the status the order already has.
-/
theorem handleUpdateStatus_defers_to_server (orderId newStatus : String) (r : Response)
    (st : Orders.State) (sv : Server) :
    sent (Orders.handleUpdateStatus orderId newStatus r st sv).trace
        = [.putOrder orderId newStatus]
    ∧ alerts (Orders.handleUpdateStatus orderId newStatus r st sv).trace
        = [match r with
           | .ok => "Order status updated!"
           | .fail m => orElse m "Error updating order"]
    ∧ (∀ user order, Orders.Action.updateStatus order.status ∉ Orders.cardActions user order)
    := by
  refine ⟨?_, ?_, ?_⟩
  · cases r <;> simp [Orders.handleUpdateStatus, sent, caught]
  · cases r <;> simp [Orders.handleUpdateStatus, alerts, caught]
  · intro user order h
    rcases Orders.mem_cardActions.mp h with h | h | h | h
    · simp at h
    · obtain ⟨ht, hs, -⟩ := h
      rw [hs] at ht
      simp at ht
    · obtain ⟨ht, hs, -⟩ := h
      rw [hs] at ht
      simp at ht
    · simp at h

/-- C10 as stated fails: advancing the order that is already `in-progress` to `in-progress`,
the server accepting the request, is reported to the user as an update, with no failure; the
records are the ones before. -/
theorem self_loop_reported_as_updated :
    movingOrder.status = "in-progress"
    ∧ (Orders.handleUpdateStatus movingOrder._id "in-progress" .ok Orders.initial
        deliveryServer).trace
        = [.request (.putOrder "o1" "in-progress"), .load .orders,
           .alert "Order status updated!"]
    ∧ (Orders.handleUpdateStatus movingOrder._id "in-progress" .ok Orders.initial
        deliveryServer).server = deliveryServer := by
  decide


/-! ## Who is offered what on an order card -/

/-- C11, as the code has it. `Start Delivery` is offered exactly when the order is `assigned`
and the role of the user is `driver`, and `Complete Delivery` exactly when the order is
`in-progress` and the role of the user is `driver`: an admin is offered neither, and the offer
depends neither on who the user is nor on which driver the order is assigned to. -/
theorem delivery_buttons_offered_to_drivers (user : Option User) (order : Order) :
    (Orders.Action.updateStatus "in-progress" ∈ Orders.cardActions user order
      ↔ order.status = "assigned" ∧ roleOf user = some "driver")
    ∧ (Orders.Action.updateStatus "completed" ∈ Orders.cardActions user order
      ↔ order.status = "in-progress" ∧ roleOf user = some "driver")
    ∧ (∀ driver, Orders.cardActions user { order with assignedDriver := driver }
        = Orders.cardActions user order)
    ∧ (∀ (u : User) (id : String), Orders.cardActions (some { u with _id := id }) order
        = Orders.cardActions (some u) order) := by
  refine ⟨?_, ?_, ?_, ?_⟩
  · rw [Orders.mem_cardActions]
    simp
  · rw [Orders.mem_cardActions]
    simp
  · intro driver
    rfl
  · intro u id
    rfl

/-- C11 as stated fails: an admin is not offered `Start Delivery` on the assigned order, and a
user with the driver role is offered it whichever driver the order is assigned to. -/
theorem admin_cannot_start_delivery :
    assignedOrder.status = "assigned"
    ∧ Orders.Action.updateStatus "in-progress" ∉ Orders.cardActions (some admin) assignedOrder
    ∧ Orders.Action.updateStatus "in-progress"
        ∈ Orders.cardActions (some driverUser) { assignedOrder with assignedDriver := some "d9" }
    := by
  decide

/-- C12. The card of an order offers the assign action if and only if the order is `pending`
and the user is an admin or a dispatcher. `handleAssign` addresses the order that
`handleOpenAssignDialog` stored, and nothing before the dialog was opened: on the page as first
rendered it sends no request. -/
theorem assign_offered_iff_pending (user : Option User) (order : Order) :
    (Orders.Action.openAssignDialog ∈ Orders.cardActions user order
      ↔ order.status = "pending" ∧ isAdminOrDispatcher user = true)
    ∧ (∀ assigned r sv, sent (Orders.handleAssign assigned r Orders.initial sv).trace = [])
    ∧ (∀ assigned r st sv,
        sent (Orders.handleAssign assigned r (Orders.handleOpenAssignDialog order st) sv).trace
          = [.assignOrder order._id "" ""])
    ∧ (∀ assigned r st sv vehicleId driverId,
        sent (Orders.handleAssign assigned r
            (Orders.setDriverId driverId
              (Orders.setVehicleId vehicleId (Orders.handleOpenAssignDialog order st))) sv).trace
          = [.assignOrder order._id vehicleId driverId]) := by
  refine ⟨?_, ?_, ?_, ?_⟩
  · rw [Orders.mem_cardActions]
    simp
  · intro assigned r sv
    simp [Orders.handleAssign, Orders.initial, sent, caught]
  · intro assigned r st sv
    cases r <;> simp [Orders.handleAssign, Orders.handleOpenAssignDialog, sent, caught]
  · intro assigned r st sv vehicleId driverId
    cases r <;>
      simp [Orders.handleAssign, Orders.handleOpenAssignDialog, Orders.setDriverId,
        Orders.setVehicleId, sent, caught]

/-- C13, as the code has it. The card of an order offers `Delete` exactly when the user is an
admin or a dispatcher, whatever the status of the order. `handleDelete` is given the id alone:
once confirmed it sends `DELETE /orders/:id` and nothing else, and it fails exactly when the
server rejects that request, alerting the server's message (or `Error deleting order`); when
the server accepts, it reports `Order deleted successfully!`. -/
theorem delete_offered_whatever_status (user : Option User) (order : Order) :
    (Orders.Action.delete ∈ Orders.cardActions user order ↔ isAdminOrDispatcher user = true)
    ∧ (∀ r st sv,
        sent (Orders.handleDelete order._id true r st sv).trace = [.deleteOrder order._id]
        ∧ alerts (Orders.handleDelete order._id true r st sv).trace
            = [match r with
               | .ok => "Order deleted successfully!"
               | .fail m => orElse m "Error deleting order"])
    ∧ (∀ st sv o, o ∈ (Orders.handleDelete order._id true .ok st sv).server.orders
        → o._id ≠ order._id) := by
  refine ⟨?_, ?_, ?_⟩
  · rw [Orders.mem_cardActions]
    simp
  · intro r st sv
    cases r <;> simp [Orders.handleDelete, sent, alerts, caught]
  · intro st sv o ho
    simp [Orders.handleDelete, Server.deleteOrder] at ho
    exact ho.2

/-- C13 at the order being delivered: after the confirmed and accepted deletion no order of
the server has its id. -/
theorem delete_offered_whatever_status_witness :
    (Orders.handleDelete movingOrder._id true .ok Orders.initial deliveryServer).server.orders
        = []
    ∧ ∀ o ∈ (Orders.handleDelete movingOrder._id true .ok Orders.initial
        deliveryServer).server.orders, o._id ≠ movingOrder._id :=
  ⟨by decide,
    (delete_offered_whatever_status (some admin) movingOrder).2.2 Orders.initial
      deliveryServer⟩

/-- C13 as stated fails: an admin is offered `Delete` on the order that is `in-progress`, and
the confirmed deletion, the server accepting it, removes the order and reports success. -/
theorem active_order_deleted :
    movingOrder.status = "in-progress"
    ∧ Orders.Action.delete ∈ Orders.cardActions (some admin) movingOrder
    ∧ (Orders.handleDelete movingOrder._id true .ok Orders.initial deliveryServer).server.orders
        = []
    ∧ alerts (Orders.handleDelete movingOrder._id true .ok Orders.initial deliveryServer).trace
        = ["Order deleted successfully!"] := by
  decide

/-- C20. In the assign dialog the `Assign` button is enabled if and only if both `vehicleId` and
`driverId` are non-empty; right after `handleOpenAssignDialog(order)` both are empty, whatever
was selected before, so the button is disabled; each select sets its own field and leaves the
other. -/
theorem assign_needs_vehicle_and_driver (st : Orders.State) (order : Order) :
    (Orders.assignDisabled st = false
      ↔ st.assignData.vehicleId ≠ "" ∧ st.assignData.driverId ≠ "")
    ∧ (Orders.handleOpenAssignDialog order st).assignData = { vehicleId := "", driverId := "" }
    ∧ Orders.assignDisabled (Orders.handleOpenAssignDialog order st) = true
    ∧ (∀ value, (Orders.setVehicleId value st).assignData
        = { vehicleId := value, driverId := st.assignData.driverId })
    ∧ (∀ value, (Orders.setDriverId value st).assignData
        = { vehicleId := st.assignData.vehicleId, driverId := value }) := by
  refine ⟨?_, rfl, ?_, fun _ => rfl, fun _ => rfl⟩
  · simp [Orders.assignDisabled]
  · simp [Orders.assignDisabled, Orders.handleOpenAssignDialog]


/-! ## The socket service -/

namespace Socket

theorem created_append (l₁ l₂ : List Event) :
    created (l₁ ++ l₂) = created l₁ ++ created l₂ := by
  simp [created, List.filterMap_append]

theorem not_disconnected_of_fresh {log : List Event} {n : Nat}
    (h : ∀ e ∈ log, e.conn < n) : Event.disconnect n ∉ log := by
  intro hm
  have := h _ hm
  simp [Event.conn] at this

theorem live_connect {log : List Event} {n : Nat} (u : String)
    (h : ∀ e ∈ log, e.conn < n) :
    live (log ++ [.io n, .emit n "join" u]) = live log ++ [n] := by
  have hfresh := not_disconnected_of_fresh h
  simp only [live, created_append, List.filter_append]
  congr 1
  · apply List.filter_congr
    intro c _
    simp
  · simp [created, hfresh]

theorem live_disconnect (log : List Event) (c : Nat) :
    live (log ++ [.disconnect c]) = (live log).filter (fun x => x != c) := by
  simp only [live, created_append, List.filter_append, List.filter_filter]
  have h1 : created [Event.disconnect c] = [] := by simp [created]
  rw [h1]
  simp only [List.filter_nil, List.append_nil]
  apply List.filter_congr
  intro x _
  by_cases hx : x = c
  · simp [hx]
  · simp [hx]

theorem invariant_initial : Invariant initial := by
  simp [Invariant, initial, live, created]

theorem invariant_step {s : State} (h : Invariant s) (call : Call) : Invariant (step s call) := by
  obtain ⟨hlog, hlive⟩ := h
  cases call with
  | getSocket => exact ⟨hlog, hlive⟩
  | connectSocket u =>
    cases hs : s.socket with
    | some c =>
      simp only [step, connectSocket, hs]
      exact ⟨hlog, by rw [hlive, hs]⟩
    | none =>
      simp only [step, connectSocket, hs]
      refine ⟨?_, ?_⟩
      · intro e he
        simp only [List.mem_append, List.mem_cons, List.mem_singleton, List.mem_nil_iff,
          or_false] at he
        rcases he with he | rfl | rfl
        · exact Nat.lt_succ_of_lt (hlog e he)
        · simp [Event.conn]
        · simp [Event.conn]
      · rw [live_connect u hlog, hlive, hs]
        rfl
  | disconnectSocket =>
    cases hs : s.socket with
    | some c =>
      simp only [step, disconnectSocket, hs]
      refine ⟨?_, ?_⟩
      · intro e he
        simp only [List.mem_append, List.mem_singleton] at he
        rcases he with he | rfl
        · exact hlog e he
        · have hc : c ∈ live s.log := by rw [hlive, hs]; simp
          have hc2 : c ∈ created s.log := (List.mem_filter.mp hc).1
          simp only [created, List.mem_filterMap] at hc2
          obtain ⟨e, he, hec⟩ := hc2
          cases e <;> simp at hec
          subst hec
          have hlt := hlog _ he
          simpa [Event.conn] using hlt
      · rw [live_disconnect, hlive, hs]
        simp
    | none =>
      simp only [step, disconnectSocket, hs]
      exact ⟨hlog, by rw [hlive, hs]⟩

theorem invariant_foldl (calls : List Call) (s : State) (h : Invariant s) :
    Invariant (calls.foldl step s) := by
  induction calls generalizing s with
  | nil => exact h
  | cons c cs ih => exact ih _ (invariant_step h c)

theorem invariant_run (calls : List Call) : Invariant (run calls) :=
  invariant_foldl calls initial invariant_initial

theorem socket_none_of_no_connect (calls : List Call) (s : State) (hs : s.socket = none)
    (h : ∀ call ∈ calls, ∀ u, call ≠ Call.connectSocket u) :
    (calls.foldl step s).socket = none := by
  induction calls generalizing s with
  | nil => exact hs
  | cons c cs ih =>
    apply ih
    · cases c with
      | getSocket => exact hs
      | disconnectSocket => simp [step, disconnectSocket, hs]
      | connectSocket u => exact absurd rfl (h _ (List.mem_cons_self _ _) u)
    · intro call hc u
      exact h call (List.mem_cons_of_mem _ hc) u

end Socket


/-- C15. After every sequence of `connectSocket`, `disconnectSocket` and `getSocket` calls the
connections made and not yet disconnected are exactly the one the module holds, so there is at
most one; `connectSocket` called while a connection is held changes nothing and returns that
connection; `getSocket` changes nothing, and it returns `null` after every sequence of calls
with no `connectSocket` in it. -/
theorem socket_single_connection (calls : List Socket.Call) :
    Socket.live (Socket.run calls).log = (Socket.run calls).socket.toList
    ∧ (Socket.live (Socket.run calls).log).length ≤ 1
    ∧ (∀ c u, (Socket.run calls).socket = some c →
        Socket.connectSocket u (Socket.run calls) = (Socket.run calls, some c))
    ∧ Socket.step (Socket.run calls) .getSocket = Socket.run calls
    ∧ ((∀ call ∈ calls, ∀ u, call ≠ Socket.Call.connectSocket u) →
        Socket.getSocket (Socket.run calls) = none) := by
  have hinv := Socket.invariant_run calls
  refine ⟨hinv.2, ?_, ?_, rfl, ?_⟩
  · rw [hinv.2]
    cases (Socket.run calls).socket <;> simp
  · intro c u hc
    simp [Socket.connectSocket, hc]
  · intro h
    exact Socket.socket_none_of_no_connect calls Socket.initial rfl h

/-- C15 on a session that connects twice, asks for the socket, disconnects and connects
again: one connection is live at the end, the third one asked for and the second one made. -/
theorem socket_single_connection_witness :
    Socket.live (Socket.run [.connectSocket "u1", .connectSocket "u2", .getSocket,
        .disconnectSocket, .connectSocket "u2"]).log = [1]
    ∧ (Socket.live (Socket.run [.connectSocket "u1", .connectSocket "u2", .getSocket,
        .disconnectSocket, .connectSocket "u2"]).log).length ≤ 1 :=
  ⟨by decide,
    (socket_single_connection [.connectSocket "u1", .connectSocket "u2", .getSocket,
        .disconnectSocket, .connectSocket "u2"]).2.1⟩

/-- C16. After every sequence of calls, `disconnectSocket` leaves `getSocket` returning `null`;
if a connection was held, it is disconnected by this call and by no earlier one, and no
connection is live afterwards; if none was held the call changes nothing, so that calling it
twice is calling it once; and a `connectSocket(u)` that follows makes a connection that no
earlier event is about, emits `join` with `u` on it and returns it. -/
theorem disconnectSocket_releases (calls : List Socket.Call) :
    Socket.getSocket (Socket.disconnectSocket (Socket.run calls)) = none
    ∧ (∀ c, (Socket.run calls).socket = some c →
        (Socket.disconnectSocket (Socket.run calls)).log
            = (Socket.run calls).log ++ [.disconnect c]
        ∧ (Socket.disconnectSocket (Socket.run calls)).log.count (.disconnect c) = 1
        ∧ Socket.live (Socket.disconnectSocket (Socket.run calls)).log = [])
    ∧ ((Socket.run calls).socket = none →
        Socket.disconnectSocket (Socket.run calls) = Socket.run calls)
    ∧ Socket.disconnectSocket (Socket.disconnectSocket (Socket.run calls))
        = Socket.disconnectSocket (Socket.run calls)
    ∧ (∀ u,
        (Socket.connectSocket u (Socket.disconnectSocket (Socket.run calls))).2
            = some (Socket.run calls).made
        ∧ (∀ e ∈ (Socket.disconnectSocket (Socket.run calls)).log,
            e.conn ≠ (Socket.run calls).made)
        ∧ (Socket.connectSocket u (Socket.disconnectSocket (Socket.run calls))).1.log
            = (Socket.disconnectSocket (Socket.run calls)).log
                ++ [.io (Socket.run calls).made, .emit (Socket.run calls).made "join" u]
        ∧ Socket.live (Socket.connectSocket u (Socket.disconnectSocket (Socket.run calls))).1.log
            = [(Socket.run calls).made]) := by
  have hinv := Socket.invariant_run calls
  have hinv2 : Socket.Invariant (Socket.disconnectSocket (Socket.run calls)) :=
    Socket.invariant_step hinv .disconnectSocket
  generalize Socket.run calls = s at hinv hinv2
  have hnone : (Socket.disconnectSocket s).socket = none := by
    cases hs : s.socket <;> simp [Socket.disconnectSocket, hs]
  have hmade : (Socket.disconnectSocket s).made = s.made := by
    cases hs : s.socket <;> simp [Socket.disconnectSocket, hs]
  refine ⟨hnone, ?_, ?_, ?_, ?_⟩
  · intro c hc
    have hlog : (Socket.disconnectSocket s).log = s.log ++ [.disconnect c] := by
      simp [Socket.disconnectSocket, hc]
    refine ⟨hlog, ?_, ?_⟩
    · have hlive : c ∈ Socket.live s.log := by rw [hinv.2, hc]; simp
      have hnot : Socket.Event.disconnect c ∉ s.log := by
        have := (List.mem_filter.mp hlive).2
        simpa using this
      rw [hlog, List.count_append, List.count_eq_zero_of_not_mem hnot]
      simp
    · rw [hinv2.2, hnone]
      rfl
  · intro hs
    simp [Socket.disconnectSocket, hs]
  · cases hs : s.socket <;> simp [Socket.disconnectSocket, hs]
  · intro u
    have hconn : Socket.connectSocket u (Socket.disconnectSocket s)
        = ({ socket := some s.made, made := s.made + 1,
             log := (Socket.disconnectSocket s).log ++ [.io s.made, .emit s.made "join" u] },
           some s.made) := by
      simp [Socket.connectSocket, hnone, hmade]
    refine ⟨by rw [hconn], ?_, by rw [hconn], ?_⟩
    · intro e he
      have := hinv2.1 e he
      rw [hmade] at this
      exact Nat.ne_of_lt this
    · rw [hconn]
      have h1 := hinv2.1
      rw [hmade] at h1
      rw [Socket.live_connect u h1, hinv2.2, hnone]
      rfl


/-- C16 after one `connectSocket`: the connection held is disconnected once. -/
theorem disconnectSocket_releases_witness :
    (Socket.run [.connectSocket "u1"]).socket = some 0
    ∧ (Socket.disconnectSocket (Socket.run [.connectSocket "u1"])).log
        = [.io 0, .emit 0 "join" "u1", .disconnect 0]
    ∧ (Socket.disconnectSocket (Socket.run [.connectSocket "u1"])).log.count (.disconnect 0)
        = 1 :=
  ⟨by decide, by decide,
    ((disconnectSocket_releases [.connectSocket "u1"]).2.1 0 (by decide)).2.1⟩

/-! ## The chat listener -/

/-- C17 at the failing input: with the contact `u3` selected, the message to the admin `u1`
from the third user `u2` is accepted and appended to the displayed conversation; with no
contact selected it is not. -/
theorem stray_message_is_appended :
    strayMessage.sender ≠ contact._id
    ∧ strayMessage.recipient = admin._id
    ∧ Communication.accepts admin (some contact) strayMessage = true
    ∧ (Communication.onNewMessage admin strayMessage chatWithContact).messages = [strayMessage]
    ∧ (Communication.onNewMessage admin strayMessage
        { chatWithContact with selectedUser := none }).messages = [] := by
  decide

/-- C18. For every displayed list and every sequence of `newMessage` events, the list
displayed afterwards is the initial list followed by the events the listener accepts, in their
order of arrival; nothing else of the page changes. With no socket nothing listens and the
page stays as it is. -/
theorem messages_shown_in_arrival_order (user : User) (events : List Communication.Message)
    (st : Communication.State) :
    (∀ c, (Communication.receive (some c) user events st).messages
        = st.messages ++ events.filter (Communication.accepts user st.selectedUser))
    ∧ (∀ c, (Communication.receive (some c) user events st).selectedUser = st.selectedUser
        ∧ (Communication.receive (some c) user events st).newMessage = st.newMessage)
    ∧ Communication.receive none user events st = st := by
  have key : ∀ (evs : List Communication.Message) (s : Communication.State),
      (evs.foldl (fun s m => Communication.onNewMessage user m s) s).messages
          = s.messages ++ evs.filter (Communication.accepts user s.selectedUser)
      ∧ (evs.foldl (fun s m => Communication.onNewMessage user m s) s).selectedUser
          = s.selectedUser
      ∧ (evs.foldl (fun s m => Communication.onNewMessage user m s) s).newMessage
          = s.newMessage := by
    intro evs
    induction evs with
    | nil => intro s; simp
    | cons m ms ih =>
      intro s
      simp only [List.foldl_cons]
      obtain ⟨h1, h2, h3⟩ := ih (Communication.onNewMessage user m s)
      by_cases hm : Communication.accepts user s.selectedUser m = true
      · have hs : Communication.onNewMessage user m s
            = { s with messages := s.messages ++ [m] } := by
          simp [Communication.onNewMessage, hm]
        rw [h1, h2, h3, hs]
        simp [List.filter_cons, hm]
      · have hs : Communication.onNewMessage user m s = s := by
          simp [Communication.onNewMessage, hm]
        rw [h1, h2, h3, hs]
        simp [List.filter_cons, hm]
  refine ⟨fun c => (key events st).1, fun c => (key events st).2, rfl⟩

/-! ## What a write carries -/

/-- C19, as the code has it. Every update sent during assignment, unassignment or status
advance carries a subset of the fields: the vehicle updates of `handleAssignDriver` and
`handleUnassignDriver` carry `assignedDriver` and `status`, their driver updates carry
`currentVehicle` and `status`, and the update of `handleUpdateStatus` carries `status` alone;
none of them is a complete snapshot. -/
theorem assignment_writes_carry_subsets :
    (∀ r1 r2 st sv req, req ∈ sent (Vehicles.handleAssignDriver r1 r2 st sv).trace →
      (req.keys = ["assignedDriver", "status"] ∨ req.keys = ["currentVehicle", "status"])
      ∧ req.isSnapshot = false)
    ∧ (∀ vehicle confirmed r1 r2 st sv req,
      req ∈ sent (Vehicles.handleUnassignDriver vehicle confirmed r1 r2 st sv).trace →
      (req.keys = ["assignedDriver", "status"] ∨ req.keys = ["currentVehicle", "status"])
      ∧ req.isSnapshot = false)
    ∧ (∀ orderId newStatus r st sv req,
      req ∈ sent (Orders.handleUpdateStatus orderId newStatus r st sv).trace →
      req.keys = ["status"] ∧ req.isSnapshot = false) := by
  refine ⟨?_, ?_, ?_⟩
  · intro r1 r2 st sv req h
    unfold Vehicles.handleAssignDriver at h
    by_cases hsel : st.selectedDriver = ""
    · simp [hsel, sent] at h
    · cases hc : st.currentVehicle <;> cases r1 <;> cases r2 <;>
        simp [hsel, hc, sent, caught] at h <;>
        rcases h with rfl | rfl <;>
        simp [Request.keys, VehicleBody.keys, DriverBody.keys, Request.isSnapshot,
          Request.entityFields, Vehicle.fieldNames, Driver.fieldNames]
  · intro vehicle confirmed r1 r2 st sv req h
    unfold Vehicles.handleUnassignDriver at h
    cases confirmed
    · simp [sent] at h
    · cases hc : vehicle.assignedDriver <;> cases r1 <;> cases r2 <;>
        simp [hc, sent, caught] at h <;>
        rcases h with rfl | rfl <;>
        simp [Request.keys, VehicleBody.keys, DriverBody.keys, Request.isSnapshot,
          Request.entityFields, Vehicle.fieldNames, Driver.fieldNames]
  · intro orderId newStatus r st sv req h
    cases r <;> simp [Orders.handleUpdateStatus, sent, caught] at h <;> subst h <;>
      simp [Request.keys, Request.isSnapshot, Request.entityFields, Order.fieldNames]

/-- C19 at the free vehicle and the free driver: the vehicle update of the assignment is not a
snapshot. -/
theorem assignment_writes_carry_subsets_witness :
    Request.putVehicle "v1" (.assignment (some "d1") "in-use")
        ∈ sent (Vehicles.handleAssignDriver .ok .ok assignDialog idleServer).trace
    ∧ (Request.putVehicle "v1" (.assignment (some "d1") "in-use")).isSnapshot = false :=
  ⟨by decide,
    (assignment_writes_carry_subsets.1 .ok .ok assignDialog idleServer _ (by decide)).2⟩

/-- C19 as stated fails: the assignment of the free driver to the free vehicle sends the
vehicle exactly the two fields `assignedDriver` and `status`, so a field of the vehicle such
as `mileage` is not in the payload, and sends the driver exactly `currentVehicle` and `status`.
-/
theorem assignment_sends_two_fields :
    sent (Vehicles.handleAssignDriver .ok .ok assignDialog idleServer).trace
        = [.putVehicle "v1" (.assignment (some "d1") "in-use"),
           .putDriver "d1" (.assignment (some "v1") "on-duty")]
    ∧ (Request.putVehicle "v1" (.assignment (some "d1") "in-use")).keys
        = ["assignedDriver", "status"]
    ∧ (Request.putDriver "d1" (.assignment (some "v1") "on-duty")).keys
        = ["currentVehicle", "status"]
    ∧ "mileage" ∈ Vehicle.fieldNames
    ∧ "mileage" ∉ (Request.putVehicle "v1" (.assignment (some "d1") "in-use")).keys
    ∧ (Request.putVehicle "v1" (.assignment (some "d1") "in-use")).isSnapshot = false := by
  decide


/-! ## Two clients assigning at once -/

theorem interleavings_pairs {α : Type} (a₁ a₂ b₁ b₂ : α) :
    interleavings [a₁, a₂] [b₁, b₂]
      = [[a₁, a₂, b₁, b₂], [a₁, b₁, a₂, b₂], [a₁, b₁, b₂, a₂],
         [b₁, a₁, a₂, b₂], [b₁, a₁, b₂, a₂], [b₁, b₂, a₁, a₂]] := by
  simp [interleavings]


theorem mem_putDriver_twice {sv : Server} {i j : String} {v : Option String} {s : String}
    {y : Driver}
    (hy : y ∈ ((sv.putDriver i (.assignment v s)).putDriver j (.assignment v s)).drivers)
    (hid : y._id = i ∨ y._id = j) : y.currentVehicle = v ∧ y.status = s := by
  simp only [Server.putDriver, List.mem_map] at hy
  obtain ⟨d', ⟨d, -, rfl⟩, rfl⟩ := hy
  have hid1 : (if d._id = i then (DriverBody.assignment v s).applyTo d else d)._id = d._id := by
    split <;> rfl
  by_cases h2 : d._id = j
  · rw [if_pos (hid1.trans h2)]
    exact ⟨rfl, rfl⟩
  · have h2' : ¬ (if d._id = i then (DriverBody.assignment v s).applyTo d else d)._id = j := by
      rw [hid1]
      exact h2
    rw [if_neg h2'] at hid ⊢
    rw [hid1] at hid
    have h1 : d._id = i := hid.resolve_right h2
    rw [if_pos h1]
    exact ⟨rfl, rfl⟩

theorem records_after_interleaving (sv : Server) (i ja jb : String) (a₁ b₁ : VehicleBody)
    (a₂ b₂ : DriverBody) (createdId : String)
    (assigned : Server → String → String → String → Server) :
    ∀ merged ∈ interleavings [Request.putVehicle i a₁, Request.putDriver ja a₂]
        [Request.putVehicle i b₁, Request.putDriver jb b₂],
      ((merged.foldl (Server.accept createdId assigned) sv).vehicles
          = ((sv.putVehicle i a₁).putVehicle i b₁).vehicles
        ∨ (merged.foldl (Server.accept createdId assigned) sv).vehicles
          = ((sv.putVehicle i b₁).putVehicle i a₁).vehicles)
      ∧ ((merged.foldl (Server.accept createdId assigned) sv).drivers
          = ((sv.putDriver ja a₂).putDriver jb b₂).drivers
        ∨ (merged.foldl (Server.accept createdId assigned) sv).drivers
          = ((sv.putDriver jb b₂).putDriver ja a₂).drivers) := by
  intro merged hm
  rw [interleavings_pairs] at hm
  simp only [List.mem_cons, List.mem_singleton, List.mem_nil_iff, or_false] at hm
  rcases hm with rfl | rfl | rfl | rfl | rfl | rfl
  · exact ⟨Or.inl rfl, Or.inl rfl⟩
  · exact ⟨Or.inl rfl, Or.inl rfl⟩
  · exact ⟨Or.inl rfl, Or.inr rfl⟩
  · exact ⟨Or.inr rfl, Or.inl rfl⟩
  · exact ⟨Or.inr rfl, Or.inr rfl⟩
  · exact ⟨Or.inr rfl, Or.inr rfl⟩

theorem sent_handleAssignDriver_resolved (st : Vehicles.State) (v : Vehicle) (sv : Server)
    (hv : st.currentVehicle = some v) (hsel : st.selectedDriver ≠ "") :
    sent (Vehicles.handleAssignDriver .ok .ok st sv).trace
      = [.putVehicle v._id (.assignment (some st.selectedDriver) "in-use"),
         .putDriver st.selectedDriver (.assignment (some v._id) "on-duty")] := by
  simp [Vehicles.handleAssignDriver, hv, hsel, sent]

/-- C14, as the code has it. Neither assignment sequence reads the server's records: what
`handleAssignDriver` and `handleAssign` send and report is fixed by the outcomes of their
requests, and the front end has no `Unavailable` of its own. When two clients assign different
drivers to the same vehicle and the server accepts all four requests, in whatever order they
interleave, both clients report success; afterwards the vehicle is `in-use` with one of the two
drivers and both drivers are `on-duty` pointing at it. -/
theorem concurrent_assignments_both_succeed (a b : Vehicles.State) (v : Vehicle) (sv : Server)
    (ha : a.currentVehicle = some v) (hb : b.currentVehicle = some v)
    (hda : a.selectedDriver ≠ "") (hdb : b.selectedDriver ≠ "") :
    (∀ r1 r2 st sv1 sv2,
      (Vehicles.handleAssignDriver r1 r2 st sv1).trace
        = (Vehicles.handleAssignDriver r1 r2 st sv2).trace)
    ∧ (∀ assigned r st sv1 sv2,
      (Orders.handleAssign assigned r st sv1).trace
        = (Orders.handleAssign assigned r st sv2).trace)
    ∧ alerts (Vehicles.handleAssignDriver .ok .ok a sv).trace
        = ["Driver assigned successfully!"]
    ∧ alerts (Vehicles.handleAssignDriver .ok .ok b sv).trace
        = ["Driver assigned successfully!"]
    ∧ (∀ createdId assigned,
        ∀ merged ∈ interleavings (sent (Vehicles.handleAssignDriver .ok .ok a sv).trace)
            (sent (Vehicles.handleAssignDriver .ok .ok b sv).trace),
          (∀ x ∈ (merged.foldl (Server.accept createdId assigned) sv).vehicles,
            x._id = v._id →
              x.status = "in-use"
              ∧ (x.assignedDriver = some a.selectedDriver
                  ∨ x.assignedDriver = some b.selectedDriver))
          ∧ (∀ y ∈ (merged.foldl (Server.accept createdId assigned) sv).drivers,
            y._id = a.selectedDriver ∨ y._id = b.selectedDriver →
              y.currentVehicle = some v._id ∧ y.status = "on-duty")) := by
  refine ⟨?_, ?_, ?_, ?_, ?_⟩
  · intro r1 r2 st sv1 sv2
    unfold Vehicles.handleAssignDriver
    by_cases hsel : st.selectedDriver = ""
    · simp [hsel]
    · cases st.currentVehicle <;> cases r1 <;> cases r2 <;> simp [hsel]
  · intro assigned r st sv1 sv2
    unfold Orders.handleAssign
    cases st.currentOrder <;> cases r <;> simp
  · simp [Vehicles.handleAssignDriver, ha, hda, alerts]
  · simp [Vehicles.handleAssignDriver, hb, hdb, alerts]
  · intro createdId assigned merged hm
    rw [sent_handleAssignDriver_resolved a v sv ha hda,
      sent_handleAssignDriver_resolved b v sv hb hdb] at hm
    obtain ⟨hveh, hdrv⟩ := records_after_interleaving sv v._id a.selectedDriver
      b.selectedDriver _ _ _ _ createdId assigned merged hm
    refine ⟨?_, ?_⟩
    · intro x hx hid
      rcases hveh with h | h
      · rw [h] at hx
        have := mem_putVehicle_assignment hx hid
        exact ⟨this.2, Or.inr this.1⟩
      · rw [h] at hx
        have := mem_putVehicle_assignment hx hid
        exact ⟨this.2, Or.inl this.1⟩
    · intro y hy hid
      rcases hdrv with h | h
      · rw [h] at hy
        exact mem_putDriver_twice hy hid
      · rw [h] at hy
        exact mem_putDriver_twice hy hid.symm

/-- C14 at two clients assigning the two free drivers to the free vehicle. -/
theorem concurrent_assignments_both_succeed_witness :
    assignDialog.currentVehicle = some truck ∧ assignDialogB.currentVehicle = some truck
    ∧ assignDialog.selectedDriver ≠ "" ∧ assignDialogB.selectedDriver ≠ ""
    ∧ assignDialog.selectedDriver ≠ assignDialogB.selectedDriver
    ∧ alerts (Vehicles.handleAssignDriver .ok .ok assignDialogB depotServer).trace
        = ["Driver assigned successfully!"] :=
  ⟨by decide, by decide, by decide, by decide, by decide,
    (concurrent_assignments_both_succeed assignDialog assignDialogB truck depotServer
      (by decide) (by decide) (by decide) (by decide)).2.2.2.1⟩

/-- C14 as stated fails: two clients assign the drivers `d1` and `d2` to the free vehicle
`v1`; their requests interleave (vehicle update of the first, vehicle update of the second,
driver update of the first, driver update of the second) and the server accepts all four.
Both clients report success and neither fails: the vehicle ends with driver `d2` while both
drivers are `on-duty` on it. -/
theorem both_clients_assign_same_vehicle :
    [Request.putVehicle "v1" (.assignment (some "d1") "in-use"),
     Request.putVehicle "v1" (.assignment (some "d2") "in-use"),
     Request.putDriver "d1" (.assignment (some "v1") "on-duty"),
     Request.putDriver "d2" (.assignment (some "v1") "on-duty")]
      ∈ interleavings (sent (Vehicles.handleAssignDriver .ok .ok assignDialog depotServer).trace)
          (sent (Vehicles.handleAssignDriver .ok .ok assignDialogB depotServer).trace)
    ∧ alerts (Vehicles.handleAssignDriver .ok .ok assignDialog depotServer).trace
        = ["Driver assigned successfully!"]
    ∧ alerts (Vehicles.handleAssignDriver .ok .ok assignDialogB depotServer).trace
        = ["Driver assigned successfully!"]
    ∧ [Request.putVehicle "v1" (.assignment (some "d1") "in-use"),
       Request.putVehicle "v1" (.assignment (some "d2") "in-use"),
       Request.putDriver "d1" (.assignment (some "v1") "on-duty"),
       Request.putDriver "d2" (.assignment (some "v1") "on-duty")].foldl
        (Server.accept "" (fun s _ _ _ => s)) depotServer
      = { vehicles := [{ truck with status := "in-use", assignedDriver := some "d2" }],
          drivers := [{ thabo with status := "on-duty", currentVehicle := some "v1" },
                      { sipho with status := "on-duty", currentVehicle := some "v1" }],
          orders := [] } := by
  refine ⟨?_, by decide, by decide, by decide⟩
  rw [sent_handleAssignDriver_resolved assignDialog truck depotServer (by decide) (by decide),
    sent_handleAssignDriver_resolved assignDialogB truck depotServer (by decide) (by decide),
    interleavings_pairs]
  decide


/-! ## The dashboard figures -/

/-- C21, as the code has it. For every list of orders loaded, the `Active Orders` figure is
the number of orders whose status is `in-progress`; the orders that are `assigned` are not
counted, so the figure is the number of active orders of the specification less the number of
`assigned` ones. When a request of the load rejects the figures stay as they were. -/
theorem activeOrders_counts_in_progress (d : Dashboard.Loaded) (stats : Dashboard.Stats) :
    (Dashboard.loadDashboardData (some d) stats).activeOrders
        = (d.orders.filter (fun o => o.status == "in-progress")).length
    ∧ (activeOrders d.orders).length
        = (Dashboard.loadDashboardData (some d) stats).activeOrders
          + (d.orders.filter (fun o => o.status == "assigned")).length
    ∧ Dashboard.loadDashboardData none stats = stats := by
  refine ⟨rfl, ?_, rfl⟩
  simp only [Dashboard.loadDashboardData, activeOrders]
  induction d.orders with
  | nil => rfl
  | cons o os ih =>
    by_cases h1 : o.status = "assigned"
    · simp [List.filter_cons, h1, ih]
      omega
    · by_cases h2 : o.status = "in-progress"
      · simp [List.filter_cons, h2, ih]
        omega
      · simp [List.filter_cons, h1, h2, ih]

/-- C21 as stated fails: with one order, which is `assigned`, the specification counts one
active order and the `Active Orders` figure is 0. -/
theorem assigned_order_not_counted :
    assignedOrder.status = "assigned"
    ∧ (activeOrders oneAssignedOrder.orders).length = 1
    ∧ (Dashboard.loadDashboardData (some oneAssignedOrder) Dashboard.initial).activeOrders = 0
    := by
  decide

/-! ## Registration and the private routes -/

/-- C26. If the password and its confirmation differ, `handleSubmit` sets the error
`Passwords do not match`, calls nothing and keeps the form. If they are equal, `register` is
called once, first, with exactly `name`, `email`, `password`, `phone` and `role` of the form;
the page navigates to `/dashboard` if and only if the result reports success, and otherwise
the error is the message of the result. -/
theorem register_gated_on_confirmation (result : Register.Result) (st : Register.State) :
    (st.formData.password ≠ st.formData.confirmPassword →
      (Register.handleSubmit result st).1
          = { st with error := "Passwords do not match" }
      ∧ (Register.handleSubmit result st).2 = [])
    ∧ (st.formData.password = st.formData.confirmPassword →
      (Register.handleSubmit result st).2
          = Register.Did.register
              [("name", st.formData.name), ("email", st.formData.email),
               ("password", st.formData.password), ("phone", st.formData.phone),
               ("role", st.formData.role)]
            :: (if result.success then [.navigate "/dashboard"] else [])
      ∧ (Register.Did.navigate "/dashboard" ∈ (Register.handleSubmit result st).2
          ↔ result.success = true)
      ∧ (Register.handleSubmit result st).1.error
          = (if result.success then "" else result.message)
      ∧ (Register.handleSubmit result st).1.formData = st.formData) := by
  refine ⟨fun h => ?_, fun h => ?_⟩
  · simp [Register.handleSubmit, h]
  · cases hs : result.success <;> simp [Register.handleSubmit, h, hs]

/-- C26 at the form with the confirmation mistyped and at the form filled in well, the
registration refused by the server. -/
theorem register_gated_on_confirmation_witness :
    signUpMistyped.formData.password ≠ signUpMistyped.formData.confirmPassword
    ∧ (Register.handleSubmit { success := true, message := "" } signUpMistyped).2 = []
    ∧ signUp.formData.password = signUp.formData.confirmPassword
    ∧ (Register.handleSubmit { success := false, message := "Email taken" } signUp).1.error
        = "Email taken" :=
  ⟨by decide,
    ((register_gated_on_confirmation { success := true, message := "" } signUpMistyped).1
      (by decide)).2,
    by decide, by decide⟩

/-- C27. `PrivateRoute` renders its children if and only if `loading` is false and
`isAuthenticated` is true; while loading it renders the placeholder, and when not loading and
not authenticated it renders the redirect to `/login`. Among the routes of `App`, the only
pages not wrapped in `PrivateRoute` are `/login` and `/register`, and every path other than
these two and the redirect at `/` has a page wrapped in `PrivateRoute`. -/
theorem privateRoute_guards (isAuthenticated loading : Bool) :
    (App.PrivateRoute isAuthenticated loading = .children
      ↔ loading = false ∧ isAuthenticated = true)
    ∧ (loading = true → App.PrivateRoute isAuthenticated loading = .loading)
    ∧ (loading = false → isAuthenticated = false →
        App.PrivateRoute isAuthenticated loading = .navigate "/login")
    ∧ (∀ path component, (path, App.Element.page component) ∈ App.routes →
        path = "/login" ∨ path = "/register")
    ∧ (∀ path element, (path, element) ∈ App.routes →
        path ≠ "/login" → path ≠ "/register" → path ≠ "/" →
        ∃ component, element = App.Element.privatePage component) := by
  refine ⟨?_, ?_, ?_, ?_, ?_⟩
  · cases isAuthenticated <;> cases loading <;> simp [App.PrivateRoute]
  · rintro rfl
    rfl
  · rintro rfl rfl
    rfl
  · intro path component h
    simp [App.routes] at h
    rcases h with ⟨rfl, -⟩ | ⟨rfl, -⟩
    · exact Or.inl rfl
    · exact Or.inr rfl
  · intro path element h h1 h2 h3
    simp only [App.routes, List.mem_cons, Prod.mk.injEq, List.mem_singleton,
      List.mem_nil_iff, or_false] at h
    rcases h with ⟨rfl, -⟩ | ⟨rfl, -⟩ | ⟨-, rfl⟩ | ⟨-, rfl⟩ | ⟨-, rfl⟩ | ⟨-, rfl⟩ | ⟨-, rfl⟩
      | ⟨-, rfl⟩ | ⟨-, rfl⟩ | ⟨rfl, -⟩
    · exact absurd rfl h1
    · exact absurd rfl h2
    all_goals first | exact ⟨_, rfl⟩ | exact absurd rfl h3

/-- C27 on the orders route, for a visitor who is not logged in. -/
theorem privateRoute_guards_witness :
    ("/orders", App.Element.privatePage "Orders") ∈ App.routes
    ∧ App.PrivateRoute false false = .navigate "/login" :=
  ⟨by decide, (privateRoute_guards false false).2.2.1 rfl rfl⟩


/-! ## Sending, deleting and listing on the chat page -/

theorem bne_eq_decide_ne (a b : String) : (a != b) = decide (a ≠ b) := by
  by_cases h : a = b <;> simp [h]

theorem Communication.usersOf_map_some (users : List User) :
    Communication.usersOf (users.map some) = some users := by
  induction users with
  | nil => rfl
  | cons u us ih => simp [Communication.usersOf, ih]

/-- C28. If the draft is empty once trimmed, or no contact is selected, `handleSendMessage`
sends nothing and leaves the page as it is. Otherwise it posts the draft to the selected
contact; when the request resolves the returned message is appended at the end of the list
and the draft is cleared, and when it rejects the list and the draft are unchanged. The `Send`
button is disabled exactly on a draft that is empty once trimmed. -/
theorem handleSendMessage_guarded (st : Communication.State) :
    ((Communication.blank st.newMessage = true ∨ st.selectedUser = none) →
      ∀ r, Communication.handleSendMessage r st = ⟨st, []⟩)
    ∧ (∀ x, Communication.blank st.newMessage = false → st.selectedUser = some x →
      (∀ data, Communication.handleSendMessage (some data) st
          = ⟨{ st with messages := st.messages ++ [data], newMessage := "" },
             [.post x._id st.newMessage "direct"]⟩)
      ∧ (Communication.handleSendMessage none st).state = st
      ∧ (Communication.handleSendMessage none st).trace
          = [.post x._id st.newMessage "direct", .consoleError "Error sending message:"])
    ∧ (Communication.sendDisabled st = true ↔ ∀ c ∈ st.newMessage.data,
        Communication.isJsSpace c = true) := by
  refine ⟨?_, ?_, ?_⟩
  · rintro (h | h) r
    · simp [Communication.handleSendMessage, h]
    · cases hb : Communication.blank st.newMessage <;>
        simp [Communication.handleSendMessage, h, hb]
  · intro x hb hx
    refine ⟨fun data => ?_, ?_, ?_⟩ <;> simp [Communication.handleSendMessage, hb, hx]
  · simp [Communication.sendDisabled, Communication.blank, List.all_eq_true]

/-- C28 on a draft of blanks and on a draft with text, the request resolving. -/
theorem handleSendMessage_guarded_witness :
    Communication.blank " \n\t" = true
    ∧ Communication.handleSendMessage (some sentMessage)
        { chatDraft with newMessage := " \n\t" } = ⟨{ chatDraft with newMessage := " \n\t" }, []⟩
    ∧ Communication.blank chatDraft.newMessage = false
    ∧ (Communication.handleSendMessage (some sentMessage) chatDraft).state.messages
        = [contactMessage, sentMessage] :=
  ⟨by decide,
    (handleSendMessage_guarded { chatDraft with newMessage := " \n\t" }).1
      (Or.inl (by decide)) (some sentMessage),
    by decide, by decide⟩

/-- C29. After a confirmed `handleDeleteMessage(id)` whose request resolves, the list is the
previous list without the messages whose `_id` is `id`: a message is in it if and only if it
was in the list with another `_id`, and the messages kept are in their original order. If
the user declines, or the request rejects, the page is unchanged. -/
theorem handleDeleteMessage_removes (messageId : String) (st : Communication.State) :
    (Communication.handleDeleteMessage messageId true .ok st).state.messages
        = st.messages.filter (fun m => decide (m._id ≠ messageId))
    ∧ (∀ m, m ∈ (Communication.handleDeleteMessage messageId true .ok st).state.messages
        ↔ m ∈ st.messages ∧ m._id ≠ messageId)
    ∧ List.Sublist (Communication.handleDeleteMessage messageId true .ok st).state.messages
        st.messages
    ∧ (Communication.handleDeleteMessage messageId true .ok st).state.selectedUser
        = st.selectedUser
    ∧ (Communication.handleDeleteMessage messageId true .ok st).state.newMessage
        = st.newMessage
    ∧ (∀ r, (Communication.handleDeleteMessage messageId false r st).state = st)
    ∧ (∀ m, (Communication.handleDeleteMessage messageId true (.fail m) st).state = st) := by
  refine ⟨?_, ?_, ?_, rfl, rfl, fun r => ?_, fun m => rfl⟩
  · simp only [Communication.handleDeleteMessage]
    apply List.filter_congr
    intro m _
    exact bne_eq_decide_ne _ _
  · intro m
    simp [Communication.handleDeleteMessage]
  · simp only [Communication.handleDeleteMessage]
    exact List.filter_sublist _
  · simp [Communication.handleDeleteMessage]

/-- C30. For every list of drivers returned, each with a user record, the contacts `loadUsers`
sets are the users of the drivers in the order returned without those whose `_id` is the
current user's: a user is a contact if and only if it is the user of a driver returned and has
another `_id`. When a request rejects the contacts stay as they were. -/
theorem loadUsers_excludes_current_user (user : User) (drivers users : List User) :
    (Communication.loadUsers user (some (drivers.map some)) users).1
        = drivers.filter (fun u => decide (u._id ≠ user._id))
    ∧ (∀ u, u ∈ (Communication.loadUsers user (some (drivers.map some)) users).1
        ↔ u ∈ drivers ∧ u._id ≠ user._id)
    ∧ List.Sublist (Communication.loadUsers user (some (drivers.map some)) users).1 drivers
    ∧ (Communication.loadUsers user none users).1 = users := by
  have h : (Communication.loadUsers user (some (drivers.map some)) users).1
      = drivers.filter (fun u => u._id != user._id) := by
    simp [Communication.loadUsers, Communication.usersOf_map_some]
  refine ⟨?_, ?_, ?_, rfl⟩
  · rw [h]
    apply List.filter_congr
    intro u _
    exact bne_eq_decide_ne _ _
  · intro u
    rw [h]
    simp
  · rw [h]
    exact List.filter_sublist _


/-! ## Who is joined on a connection -/

namespace Socket

theorem joins_append (l₁ l₂ : List Event) (c : Nat) :
    joins (l₁ ++ l₂) c = joins l₁ c ++ joins l₂ c := by
  simp [joins, List.filterMap_append]

theorem joins_of_fresh {log : List Event} {n : Nat} (h : ∀ e ∈ log, e.conn < n) :
    joins log n = [] := by
  simp only [joins, List.filterMap_eq_nil_iff]
  intro e he
  have hlt := h e he
  cases e with
  | io c => rfl
  | disconnect c => rfl
  | emit c ev arg =>
    have hc : c ≠ n := by
      simp only [Event.conn] at hlt
      exact Nat.ne_of_lt hlt
    simp [hc]

theorem mem_created_lt {s : State} (h : Invariant s) {c : Nat} (hc : c ∈ created s.log) :
    c < s.made := by
  simp only [created, List.mem_filterMap] at hc
  obtain ⟨e, he, hec⟩ := hc
  cases e <;> simp at hec
  subst hec
  have hlt := h.1 _ he
  simpa [Event.conn] using hlt

theorem made_le_step (s : State) (call : Call) : s.made ≤ (step s call).made := by
  cases call with
  | getSocket => exact Nat.le_refl _
  | connectSocket u =>
    cases hs : s.socket <;> simp [step, connectSocket, hs]
  | disconnectSocket =>
    cases hs : s.socket <;> simp [step, disconnectSocket, hs]

theorem joins_step (s : State) (call : Call) {c : Nat} (hc : c < s.made) :
    joins (step s call).log c = joins s.log c := by
  cases call with
  | getSocket => rfl
  | connectSocket u =>
    cases hs : s.socket with
    | some c' => simp [step, connectSocket, hs]
    | none =>
      have hne : ¬ s.made = c := fun h => Nat.lt_irrefl _ (h ▸ hc)
      simp [step, connectSocket, hs, joins_append, joins, hne]
  | disconnectSocket =>
    cases hs : s.socket with
    | some c' => simp [step, disconnectSocket, hs, joins_append, joins]
    | none => simp [step, disconnectSocket, hs]

theorem joins_foldl (calls : List Call) (s : State) {c : Nat} (hc : c < s.made) :
    joins (calls.foldl step s).log c = joins s.log c := by
  induction calls generalizing s with
  | nil => rfl
  | cons call rest ih =>
    simp only [List.foldl_cons]
    rw [ih (step s call) (Nat.lt_of_lt_of_le hc (made_le_step s call)), joins_step s call hc]

theorem joined_once_step {s : State} (hinv : Invariant s)
    (h : ∀ c ∈ created s.log, (joins s.log c).length = 1) (call : Call) :
    ∀ c ∈ created (step s call).log, (joins (step s call).log c).length = 1 := by
  intro c hc
  by_cases hlt : c < s.made
  · rw [joins_step s call hlt]
    apply h
    cases call with
    | getSocket => exact hc
    | connectSocket u =>
      cases hs : s.socket with
      | some c' => simpa [step, connectSocket, hs] using hc
      | none =>
        simp only [step, connectSocket, hs, created_append, List.mem_append] at hc
        rcases hc with hc | hc
        · exact hc
        · simp [created] at hc
          omega
    | disconnectSocket =>
      cases hs : s.socket with
      | some c' =>
        simp only [step, disconnectSocket, hs, created_append, List.mem_append] at hc
        rcases hc with hc | hc
        · exact hc
        · simp [created] at hc
      | none => simpa [step, disconnectSocket, hs] using hc
  · cases call with
    | getSocket => exact absurd (mem_created_lt hinv hc) hlt
    | disconnectSocket =>
      cases hs : s.socket with
      | some c' =>
        simp only [step, disconnectSocket, hs, created_append, List.mem_append] at hc
        rcases hc with hc | hc
        · exact absurd (mem_created_lt hinv hc) hlt
        · simp [created] at hc
      | none =>
        simp only [step, disconnectSocket, hs] at hc
        exact absurd (mem_created_lt hinv hc) hlt
    | connectSocket u =>
      cases hs : s.socket with
      | some c' =>
        simp only [step, connectSocket, hs] at hc
        exact absurd (mem_created_lt hinv hc) hlt
      | none =>
        simp only [step, connectSocket, hs, created_append, List.mem_append] at hc
        rcases hc with hc | hc
        · exact absurd (mem_created_lt hinv hc) hlt
        · simp [created] at hc
          subst hc
          simp only [step, connectSocket, hs]
          rw [joins_append, joins_of_fresh hinv.1]
          simp [joins]

theorem joined_once_foldl (calls : List Call) (s : State) (hinv : Invariant s)
    (h : ∀ c ∈ created s.log, (joins s.log c).length = 1) :
    ∀ c ∈ created (calls.foldl step s).log, (joins (calls.foldl step s).log c).length = 1 := by
  induction calls generalizing s with
  | nil => exact h
  | cons call rest ih =>
    exact ih (step s call) (invariant_step hinv call) (joined_once_step hinv h call)

theorem run_append (calls more : List Call) :
    run (calls ++ more) = more.foldl step (run calls) := by
  simp [run, List.foldl_append]

end Socket

/-- C23. After every sequence of calls each connection made has exactly one `join` on it. The
connection a `connectSocket(u)` makes is joined as `u`, and stays so whatever is called
afterwards. A `connectSocket(u2)` made while a connection is held emits nothing and returns
the connection held, whose only `join` is the one of the call that made it. -/
theorem join_once_per_connection (calls : List Socket.Call) :
    (∀ c ∈ Socket.created (Socket.run calls).log,
      (Socket.joins (Socket.run calls).log c).length = 1)
    ∧ (∀ u more, (Socket.run calls).socket = none →
        Socket.joins (Socket.run (calls ++ .connectSocket u :: more)).log
          (Socket.run calls).made = [u])
    ∧ (∀ c u2, (Socket.run calls).socket = some c →
        Socket.connectSocket u2 (Socket.run calls) = (Socket.run calls, some c)
        ∧ (Socket.joins (Socket.run calls).log c).length = 1
        ∧ Socket.joins (Socket.run (calls ++ [.connectSocket u2])).log c
            = Socket.joins (Socket.run calls).log c) := by
  have hinv := Socket.invariant_run calls
  refine ⟨?_, ?_, ?_⟩
  · exact Socket.joined_once_foldl calls Socket.initial Socket.invariant_initial
      (by simp [Socket.initial, Socket.created])
  · intro u more hs
    rw [Socket.run_append, List.foldl_cons]
    have hstep : Socket.step (Socket.run calls) (.connectSocket u)
        = { socket := some (Socket.run calls).made, made := (Socket.run calls).made + 1,
            log := (Socket.run calls).log
              ++ [.io (Socket.run calls).made, .emit (Socket.run calls).made "join" u] } := by
      simp [Socket.step, Socket.connectSocket, hs]
    rw [hstep, Socket.joins_foldl more _ (Nat.lt_succ_self _), Socket.joins_append,
      Socket.joins_of_fresh hinv.1]
    simp [Socket.joins]
  · intro c u2 hs
    have hc : c ∈ Socket.created (Socket.run calls).log := by
      have : c ∈ Socket.live (Socket.run calls).log := by rw [hinv.2, hs]; simp
      exact (List.mem_filter.mp this).1
    refine ⟨by simp [Socket.connectSocket, hs], ?_, ?_⟩
    · exact Socket.joined_once_foldl calls Socket.initial Socket.invariant_initial
        (by simp [Socket.initial, Socket.created]) c hc
    · rw [Socket.run_append]
      simp [Socket.step, Socket.connectSocket, hs]

/-- C23 on a session where `u2` connects while the connection made for `u1` is held. -/
theorem join_once_per_connection_witness :
    (Socket.run [.connectSocket "u1"]).socket = some 0
    ∧ Socket.joins (Socket.run [.connectSocket "u1", .connectSocket "u2"]).log 0 = ["u1"]
    ∧ Socket.connectSocket "u2" (Socket.run [.connectSocket "u1"])
        = (Socket.run [.connectSocket "u1"], some 0) :=
  ⟨by decide, by decide,
    ((join_once_per_connection [.connectSocket "u1"]).2.2 0 "u2" (by decide)).1⟩


/-! ## Typing into the order form -/

theorem Orders.splitDots_ne_nil (cs : List Char) : Orders.splitDots cs ≠ [] := by
  induction cs with
  | nil => simp [Orders.splitDots]
  | cons c rest ih =>
    simp only [Orders.splitDots]
    split
    · simp
    · split <;> simp

theorem Orders.splitDots_of_no_dot (cs : List Char) (h : '.' ∉ cs) :
    Orders.splitDots cs = [cs] := by
  induction cs with
  | nil => rfl
  | cons c rest ih =>
    have hc : c ≠ '.' := fun e => h (e ▸ List.mem_cons_self _ _)
    have hr : '.' ∉ rest := fun m => h (List.mem_cons_of_mem _ m)
    simp [Orders.splitDots, ih hr, hc]

theorem Orders.splitDots_append_dot (p rest : List Char) (h : '.' ∉ p) :
    Orders.splitDots (p ++ '.' :: rest) = p :: Orders.splitDots rest := by
  induction p with
  | nil =>
    simp only [List.nil_append, Orders.splitDots]
    split
    · rename_i hnil
      exact absurd hnil (Orders.splitDots_ne_nil rest)
    · rename_i segment more heq
      simp [heq]
  | cons c cs ih =>
    have hc : c ≠ '.' := fun e => h (e ▸ List.mem_cons_self _ _)
    have hr : '.' ∉ cs := fun m => h (List.mem_cons_of_mem _ m)
    simp [Orders.splitDots, ih hr, hc]

/-- C25. For every form state and every event `(name, value)`, `handleChange` is a
single-field update. If `name` contains a dot, with `parent` and `child` the first two
segments of `name.split('.')` (for a name `parent.child` with one dot, the text before it and
the text after it): afterwards `formData[parent]` is an object whose field `child` is `value`,
every other field set on `formData[parent]` and the text it spreads are as before, and every
other top-level field is unchanged, so that the only nested read that differs is
`formData[parent][child]`. Otherwise the top-level field `name` holds the text `value` and
every other top-level field is unchanged. -/
theorem handleChange_single_field (name value : String) (formData : Orders.FormData) :
    ('.' ∈ name.data →
      (Orders.handleChange name value formData).own (Orders.parentOf name)
          (Orders.childOf name) = some value
      ∧ (∀ parent child, ¬ (parent = Orders.parentOf name ∧ child = Orders.childOf name) →
          (Orders.handleChange name value formData).own parent child
            = formData.own parent child)
      ∧ (∃ fields, (Orders.handleChange name value formData) (Orders.parentOf name)
            = some (.object (Orders.spread (formData (Orders.parentOf name))).1 fields)
          ∧ fields (Orders.childOf name) = some value
          ∧ ∀ k, k ≠ Orders.childOf name →
              fields k = (Orders.spread (formData (Orders.parentOf name))).2 k)
      ∧ (∀ key, key ≠ Orders.parentOf name →
          (Orders.handleChange name value formData) key = formData key))
    ∧ ('.' ∉ name.data →
      (Orders.handleChange name value formData) name = some (.text value)
      ∧ (∀ key, key ≠ name → (Orders.handleChange name value formData) key = formData key))
    ∧ (∀ p c : String, '.' ∉ p.data → '.' ∉ c.data →
        '.' ∈ (p ++ "." ++ c).data
        ∧ Orders.parentOf (p ++ "." ++ c) = p ∧ Orders.childOf (p ++ "." ++ c) = c) := by
  refine ⟨fun h => ⟨?_, ?_, ?_, ?_⟩, fun h => ⟨?_, ?_⟩, ?_⟩
  · simp [Orders.handleChange, h, Orders.FormData.own]
  · intro parent child hne
    by_cases hp : parent = Orders.parentOf name
    · have hc : child ≠ Orders.childOf name := fun e => hne ⟨hp, e⟩
      subst hp
      simp only [Orders.handleChange, h, if_true, Orders.FormData.own, hc, if_false]
      cases formData (Orders.parentOf name) with
      | none => rfl
      | some v => cases v <;> rfl
    · simp [Orders.handleChange, h, Orders.FormData.own, hp]
  · refine ⟨fun k =>
        if k = Orders.childOf name then some value
        else (Orders.spread (formData (Orders.parentOf name))).2 k, ?_, ?_, ?_⟩
    · simp only [Orders.handleChange, h, if_true]
    · simp
    · intro k hk
      simp [hk]
  · intro key hk
    simp [Orders.handleChange, h, hk]
  · simp [Orders.handleChange, h]
  · intro key hk
    simp [Orders.handleChange, h, hk]
  · intro p c hp hc
    have hdata : (p ++ "." ++ c).data = p.data ++ '.' :: c.data := by
      simp [String.data_append]
    have hsplit : Orders.splitDots (p ++ "." ++ c).data = [p.data, c.data] := by
      rw [hdata, Orders.splitDots_append_dot p.data c.data hp,
        Orders.splitDots_of_no_dot c.data hc]
    refine ⟨?_, ?_, ?_⟩
    · rw [hdata]
      simp
    · show String.mk ((Orders.splitDots (p ++ "." ++ c).data).headD []) = p
      rw [hsplit]
      rfl
    · show String.mk ((Orders.splitDots (p ++ "." ++ c).data).tail.headD []) = c
      rw [hsplit]
      rfl

/-- C25 on the form as first rendered: typing the customer's phone sets that field and leaves
the customer's name; typing under a name with a text as parent, `notes.x`, makes `notes` an
object with the field `x`; typing the notes sets the text. -/
theorem handleChange_single_field_witness :
    '.' ∈ "customer.phone".data
    ∧ Orders.parentOf "customer.phone" = "customer"
    ∧ Orders.childOf "customer.phone" = "phone"
    ∧ (Orders.handleChange "customer.phone" "0820000000" Orders.initialForm).own
        (Orders.parentOf "customer.phone") (Orders.childOf "customer.phone")
        = some "0820000000"
    ∧ (Orders.handleChange "customer.phone" "0820000000" Orders.initialForm).own
        "customer" "name" = some ""
    ∧ (Orders.handleChange "notes.x" "y" Orders.initialForm).own "notes" "x" = some "y"
    ∧ (Orders.handleChange "notes" "fragile" Orders.initialForm).textOf "notes"
        = some "fragile" :=
  ⟨by decide, by decide, by decide,
    (handleChange_single_field "customer.phone" "0820000000" Orders.initialForm).1
      (by decide) |>.1,
    by decide, by decide, by decide⟩

/-! ## The breakdown of the costs by type -/

namespace Costs

theorem get_set_self (g : Grouped) (k : String) (v : ℚ) : (g.set k v).get k = some v := by
  induction g with
  | nil => simp [Grouped.set, Grouped.get]
  | cons p rest ih =>
    obtain ⟨k', w⟩ := p
    by_cases h : k' = k
    · simp [Grouped.set, Grouped.get, h]
    · simp [Grouped.set, Grouped.get, h, ih]

theorem get_set_other (g : Grouped) {k t : String} (v : ℚ) (h : k ≠ t) :
    (g.set k v).get t = g.get t := by
  induction g with
  | nil => simp [Grouped.set, Grouped.get, h]
  | cons p rest ih =>
    obtain ⟨k', w⟩ := p
    by_cases h1 : k' = k
    · subst h1
      simp [Grouped.set, Grouped.get, h]
    · by_cases h2 : k' = t
      · subst h2
        simp [Grouped.set, Grouped.get, h1]
      · simp [Grouped.set, Grouped.get, h1, h2, ih]

theorem sum_set (g : Grouped) (k : String) (v : ℚ) :
    ((g.set k v).map Prod.snd).sum = (g.map Prod.snd).sum - (g.get k).getD 0 + v := by
  induction g with
  | nil => simp [Grouped.set, Grouped.get]
  | cons p rest ih =>
    obtain ⟨k', w⟩ := p
    by_cases h : k' = k
    · simp [Grouped.set, Grouped.get, h]
      ring
    · simp [Grouped.set, Grouped.get, h, ih]
      ring

theorem keys_set (g : Grouped) (k : String) (v : ℚ) :
    (g.set k v).map Prod.fst
      = if k ∈ g.map Prod.fst then g.map Prod.fst else g.map Prod.fst ++ [k] := by
  induction g with
  | nil => simp [Grouped.set]
  | cons p rest ih =>
    obtain ⟨k', w⟩ := p
    by_cases h : k' = k
    · simp [Grouped.set, h]
    · have h' : ¬ k = k' := fun e => h e.symm
      by_cases hm : k ∈ rest.map Prod.fst
      · simp only [Grouped.set, h, if_false, List.map_cons, ih, hm, if_true, List.mem_cons,
          or_true]
      · simp only [Grouped.set, h, if_false, List.map_cons, ih, hm, List.mem_cons, h',
          or_self, List.cons_append]

theorem get_eq_none_iff (g : Grouped) (t : String) :
    g.get t = none ↔ t ∉ g.map Prod.fst := by
  induction g with
  | nil => simp [Grouped.get]
  | cons p rest ih =>
    obtain ⟨k', w⟩ := p
    by_cases h : k' = t
    · simp [Grouped.get, h]
    · have h' : ¬ t = k' := fun e => h e.symm
      simp [Grouped.get, h, h', ih]

theorem get_addCost (g : Grouped) (c : Cost) (t : String) :
    (addCost g c).get t
      = if c.type = t then some ((g.get t).getD 0 + c.amount) else g.get t := by
  by_cases h : c.type = t
  · subst h
    simp only [addCost, if_true]
    rw [get_set_self]
    cases hg : g.get c.type with
    | none => simp [get_set_self]
    | some v =>
      by_cases hv : v = 0
      · simp [hv, get_set_self]
      · simp [hv, hg]
  · simp only [addCost, h, if_false]
    rw [get_set_other _ _ h]
    cases hg : g.get c.type with
    | none => simp [get_set_other _ _ h]
    | some v =>
      by_cases hv : v = 0
      · simp [hv, get_set_other _ _ h]
      · simp [hv]

theorem sum_addCost (g : Grouped) (c : Cost) :
    ((addCost g c).map Prod.snd).sum = (g.map Prod.snd).sum + c.amount := by
  simp only [addCost]
  rw [sum_set]
  cases hg : g.get c.type with
  | none =>
    simp [sum_set, get_set_self, hg]
  | some v =>
    by_cases hv : v = 0
    · simp [hv, sum_set, get_set_self, hg]
    · simp [hv, hg]
      ring

theorem keys_addCost (g : Grouped) (c : Cost) :
    (addCost g c).map Prod.fst
      = if c.type ∈ g.map Prod.fst then g.map Prod.fst else g.map Prod.fst ++ [c.type] := by
  simp only [addCost]
  rw [keys_set]
  cases hg : g.get c.type with
  | none =>
    have hn : c.type ∉ g.map Prod.fst := (get_eq_none_iff g c.type).mp hg
    simp [keys_set, hn]
  | some v =>
    have hm : c.type ∈ g.map Prod.fst := by
      by_contra hn
      rw [(get_eq_none_iff g c.type).mpr hn] at hg
      exact Option.noConfusion hg
    by_cases hv : v = 0
    · simp [hv, keys_set, hm]
    · simp [hv, hm]

theorem get_foldl (costs : List Cost) (g : Grouped) (t : String) :
    ((costs.foldl addCost g).get t).getD 0
        = (g.get t).getD 0 + ((costs.filter (fun c => decide (c.type = t))).map Cost.amount).sum
    ∧ ((costs.foldl addCost g).get t = none
        ↔ g.get t = none ∧ ∀ c ∈ costs, c.type ≠ t) := by
  induction costs generalizing g with
  | nil => simp
  | cons c rest ih =>
    simp only [List.foldl_cons]
    obtain ⟨h1, h2⟩ := ih (addCost g c)
    rw [h1, h2, get_addCost]
    by_cases h : c.type = t
    · simp [h, List.filter_cons]
      ring
    · simp [h, List.filter_cons]

theorem sum_foldl (costs : List Cost) (g : Grouped) :
    ((costs.foldl addCost g).map Prod.snd).sum
      = (g.map Prod.snd).sum + (costs.map Cost.amount).sum := by
  induction costs generalizing g with
  | nil => simp
  | cons c rest ih =>
    simp only [List.foldl_cons, List.map_cons, List.sum_cons]
    rw [ih, sum_addCost]
    ring

theorem nodup_foldl (costs : List Cost) (g : Grouped) (h : (g.map Prod.fst).Nodup) :
    ((costs.foldl addCost g).map Prod.fst).Nodup := by
  induction costs generalizing g with
  | nil => exact h
  | cons c rest ih =>
    simp only [List.foldl_cons]
    apply ih
    rw [keys_addCost]
    by_cases hm : c.type ∈ g.map Prod.fst
    · simpa [hm] using h
    · simp only [hm, if_false]
      exact List.Nodup.append h (List.nodup_singleton _) (by simpa using hm)

theorem totalCost_eq_sum (costs : List Cost) :
    totalCost costs = (costs.map Cost.amount).sum := by
  have key : ∀ (cs : List Cost) (a : ℚ),
      cs.foldl (fun sum cost => sum + cost.amount) a = a + (cs.map Cost.amount).sum := by
    intro cs
    induction cs with
    | nil => intro a; simp
    | cons c rest ih =>
      intro a
      simp only [List.foldl_cons, List.map_cons, List.sum_cons]
      rw [ih]
      ring
  simp [totalCost, key]

end Costs

/-- C24. For every list of costs, amounts taken as exact numbers: `getCostsByType` gives each
type that occurs in the list the sum of the amounts of the costs of that type, has a key for
no other type and no key twice; the sum of its values is `totalCost`, which is the sum of all
amounts, 0 for the empty list. -/
theorem costs_by_type_consistent (costs : List Cost) :
    (∀ t, (∃ c ∈ costs, c.type = t) →
      (Costs.getCostsByType costs).get t
        = some (((costs.filter (fun c => decide (c.type = t))).map Cost.amount).sum))
    ∧ (∀ t, (∀ c ∈ costs, c.type ≠ t) → (Costs.getCostsByType costs).get t = none)
    ∧ (∀ t, t ∈ (Costs.getCostsByType costs).map Prod.fst ↔ ∃ c ∈ costs, c.type = t)
    ∧ ((Costs.getCostsByType costs).map Prod.fst).Nodup
    ∧ ((Costs.getCostsByType costs).map Prod.snd).sum = Costs.totalCost costs
    ∧ Costs.totalCost costs = (costs.map Cost.amount).sum
    ∧ Costs.totalCost [] = 0 := by
  have hnone : ∀ t, (Costs.getCostsByType costs).get t = none ↔ ∀ c ∈ costs, c.type ≠ t := by
    intro t
    have := (Costs.get_foldl costs [] t).2
    simpa [Costs.getCostsByType, Costs.Grouped.get] using this
  refine ⟨?_, ?_, ?_, ?_, ?_, Costs.totalCost_eq_sum costs, rfl⟩
  · intro t hex
    have hval := (Costs.get_foldl costs [] t).1
    cases hg : (Costs.getCostsByType costs).get t with
    | none =>
      obtain ⟨c, hc, hct⟩ := hex
      exact absurd hct ((hnone t).mp hg c hc)
    | some v =>
      simp only [Costs.getCostsByType] at hg
      rw [hg] at hval
      simpa [Costs.Grouped.get] using hval
  · intro t h
    exact (hnone t).mpr h
  · intro t
    constructor
    · intro hm
      by_contra hex
      have hall : ∀ c ∈ costs, c.type ≠ t := fun c hc hct => hex ⟨c, hc, hct⟩
      exact ((Costs.get_eq_none_iff _ t).mp ((hnone t).mpr hall)) hm
    · rintro ⟨c, hc, hct⟩
      by_contra hm
      exact (hnone t).mp ((Costs.get_eq_none_iff _ t).mpr hm) c hc hct
  · exact Costs.nodup_foldl costs [] (by simp)
  · rw [Costs.totalCost_eq_sum]
    have := Costs.sum_foldl costs []
    simpa [Costs.getCostsByType] using this

/-- C24 on a ledger of three costs, two of them for fuel. -/
theorem costs_by_type_consistent_witness :
    Costs.getCostsByType ledger = [("fuel", 150), ("toll", 41 / 2)]
    ∧ (Costs.getCostsByType ledger).get "fuel"
        = some (((ledger.filter (fun c => decide (c.type = "fuel"))).map Cost.amount).sum) :=
  ⟨by
      simp [Costs.getCostsByType, ledger, Costs.addCost, Costs.Grouped.get, Costs.Grouped.set]
      norm_num,
    (costs_by_type_consistent ledger).1 "fuel" ⟨_, List.mem_cons_self _ _, rfl⟩⟩

end Fleet
